import Mathlib

/-! Session and routing layer of the contest-tracking API.

A shallow embedding of

* `usecases/session_interactor.go` (CreateUser, CreateSession, RefreshSession),
* `interfaces/services/session_service.go` (Login, Register, Refresh),
* `app/server.go` (the route table built by `routes()`),

followed by theorems about them.

Conventions of the embedding:

* A Go `error` is `Option Error`; `none` is `nil`.
* The collaborators behind Go interfaces (user repository, password hasher,
  token generator, HTTP context) are records of functions.  Each of them takes
  the current world `W` (database contents, clock, entropy, ...) and returns
  the new one, so nothing is assumed about their purity.
* Every call made to a collaborator is appended to a call log, so that
  "is never invoked" is a statement about that log.
* Where the source hands a collaborator a pointer to a local variable and reads
  that variable afterwards (the user behind the claims given to `NewToken`),
  the collaborator also answers the content it leaves behind the pointer.
-/

namespace domain

/-- Modelled from the spec: the `domain.Role` enumeration is declared outside the
files at hand; the spec lists the roles Guest, User and Admin, ordered
Guest < User < Admin. -/
inductive Role where
  | RoleGuest
  | RoleUser
  | RoleAdmin
  deriving DecidableEq, Repr

/-- Modelled from the spec: `domain.Preferences` is declared outside the files at
hand; the spec calls it a nested settings object.  `Preferences{}` is the
object with no setting. -/
structure Preferences where
  settings : List (String × String)
  deriving DecidableEq, Repr

/-- Modelled from the spec: `domain.User` is declared outside the files at hand.
Its fields are the ones the spec lists and the sources read or write: `ID`,
`Email`, `DisplayName`, `Password` (tests), `Role` and the pointer
`Preferences` (session service).  A nil pointer is `none`. -/
structure User where
  ID : Nat
  Email : String
  DisplayName : String
  Password : String
  Role : Option Role
  Preferences : Option Preferences
  deriving DecidableEq, Repr

/-- The Go zero value `domain.User{}`: every field at its zero value.  The zero
value of the role field is `none`, which leaves open which named role, if any,
the integer zero stands for. -/
def User.zero : User :=
  { ID := 0, Email := "", DisplayName := "", Password := "", Role := none, Preferences := none }

end domain

open domain

namespace fail

/-- The error value of the `fail` package, reduced to what the sources observe:
the text of the underlying error (`Err`), which is also what `Error()` prints
when no message is attached, and the `Ignorable` mark. -/
structure Error where
  Err : String
  Ignorable : Bool
  deriving DecidableEq, Repr

/-- An option of `fail.Wrap`; the sources only ever pass `fail.WithIgnorable()`. -/
inductive Option where
  | WithIgnorable
  deriving DecidableEq, Repr

/-- The function `fail.New(text)`: a fresh error, not ignorable. -/
def New (text : String) : Error :=
  { Err := text, Ignorable := false }

/-- Applies one option to an error. -/
def Option.apply (o : Option) (e : Error) : Error :=
  match o with
  | Option.WithIgnorable => { e with Ignorable := true }

end fail

namespace domain

/-- Modelled from the spec: `domain.WrapError` is declared outside the files at
hand.  The spec says lower-level errors are "wrapped with context" and that
`UserDoesNotExist` and `PasswordIncorrect` are "marked as ignorable"; wrapping
keeps the underlying error, applies the options given, and maps `nil` to `nil`. -/
def WrapError (err : Option fail.Error) (opts : List fail.Option) : Option fail.Error :=
  match err with
  | none => none
  | some e => some (opts.foldl (fun acc o => o.apply acc) e)

/-- Modelled from the spec: `domain.ErrNotFound` is declared outside the files at
hand.  The spec calls it "a distinguished error value distinct from other
persistence errors", and the repository tests compare lookups of absent rows
against it. -/
def ErrNotFound : fail.Error := fail.New "not found"

end domain

namespace usecases

/-- The sentinel built by `fail.New("invalid password supplied")`. -/
def ErrPasswordIncorrect : fail.Error := fail.New "invalid password supplied"

/-- The sentinel built by `fail.New("user does not exist")`. -/
def ErrUserDoesNotExist : fail.Error := fail.New "user does not exist"

/-- An error `e` is the sentinel `s` when it wraps it: same underlying error.
This is what the tests check with `assert.EqualError`. -/
def IsErr (e : Option fail.Error) (s : fail.Error) : Prop :=
  ∃ x, e = some x ∧ x.Err = s.Err

instance (e : Option fail.Error) (s : fail.Error) : Decidable (IsErr e s) :=
  match e with
  | none => isFalse (fun ⟨_, h, _⟩ => by cases h)
  | some x =>
    if h : x.Err = s.Err then isTrue ⟨x, rfl, h⟩
    else isFalse (fun ⟨y, hy, hs⟩ => by cases hy; exact h hs)

/-- The claims put in a token: `SessionClaims{User: &user}`.  The field is a
pointer; `some u` is a pointer to a user whose content is `u` when the claims
are built. -/
structure SessionClaims where
  User : Option domain.User
  deriving DecidableEq, Repr

/-- One call to a collaborator of the session interactor, with its arguments. -/
inductive Call where
  | FindByEmail (email : String)
  | Store (user : domain.User)
  | Hash (password : String)
  | Compare (hashed : String) (password : String)
  | NewToken (lifetime : Nat) (claims : SessionClaims)
  deriving DecidableEq, Repr

/-- The interface `UserRepository`, as far as the session interactor uses it. -/
structure UserRepository (W : Type) where
  Store : W → domain.User → Option fail.Error × W
  FindByEmail : W → String → (domain.User × Option fail.Error) × W

/-- The interface `PasswordHasher`. -/
structure PasswordHasher (W : Type) where
  Hash : W → String → (String × Option fail.Error) × W
  Compare : W → String → String → Bool × W

/-- The interface `JWTGenerator`.  `NewToken` receives the claims by value, but
their field `User` points to the local variable `user` of the caller, which the
caller reads again after the call.  So `NewToken` answers, besides the token
and the error, the content it leaves behind that pointer: the second
component, equal to the user of the claims for a generator that does not
write through the pointer. -/
structure JWTGenerator (W : Type) where
  NewToken : W → Nat → SessionClaims → (String × Option fail.Error) × domain.User × W

/-- The struct `sessionInteractor`.  `NeedsHashing` is the method
`domain.User.NeedsHashing`, declared outside the files at hand and taken as a
parameter. -/
structure sessionInteractor (W : Type) where
  userRepository : UserRepository W
  passwordHasher : PasswordHasher W
  jwtGenerator : JWTGenerator W
  sessionLength : Nat
  NeedsHashing : domain.User → Bool

/-- What a run of an operation leaves behind: the values it returns, the world
after it, and the calls it made to its collaborators, in order. -/
structure Run (W : Type) (α : Type) where
  result : α
  world : W
  calls : List Call

/-- The text built by `fail.Errorf("User with an ID (%v) could not be created.", id)`. -/
def createWithIDText (id : Nat) : String :=
  "User with an ID (" ++ toString id ++ ") could not be created."

/-- The method `sessionInteractor.CreateUser`. -/
def sessionInteractor.CreateUser {W : Type} (si : sessionInteractor W) (w : W)
    (user : domain.User) : Run W (Option fail.Error) :=
  if user.ID ≠ 0 then
    { result := some (fail.New (createWithIDText user.ID)), world := w, calls := [] }
  else if si.NeedsHashing user then
    match si.passwordHasher.Hash w user.Password with
    | ((hashed, err), w1) =>
      if err ≠ none then
        { result := domain.WrapError err [], world := w1, calls := [Call.Hash user.Password] }
      else
        let user1 : domain.User := { user with Password := hashed }
        match si.userRepository.Store w1 user1 with
        | (err1, w2) =>
          { result := domain.WrapError err1 [], world := w2,
            calls := [Call.Hash user.Password, Call.Store user1] }
  else
    match si.userRepository.Store w user with
    | (err1, w2) =>
      { result := domain.WrapError err1 [], world := w2, calls := [Call.Store user] }

/-- The method `sessionInteractor.CreateSession`.  The user returned at the end
is the local `user` read after `NewToken` was given a pointer to it: `user1`. -/
def sessionInteractor.CreateSession {W : Type} (si : sessionInteractor W) (w : W)
    (email password : String) : Run W (domain.User × String × Option fail.Error) :=
  match si.userRepository.FindByEmail w email with
  | ((user, err), w1) =>
    if err ≠ none then
      { result := (User.zero, "", domain.WrapError err []), world := w1,
        calls := [Call.FindByEmail email] }
    else if user.ID = 0 then
      { result := (User.zero, "",
          domain.WrapError (some ErrUserDoesNotExist) [fail.Option.WithIgnorable]),
        world := w1, calls := [Call.FindByEmail email] }
    else
      match si.passwordHasher.Compare w1 user.Password password with
      | (same, w2) =>
        if !same then
          { result := (User.zero, "",
              domain.WrapError (some ErrPasswordIncorrect) [fail.Option.WithIgnorable]),
            world := w2,
            calls := [Call.FindByEmail email, Call.Compare user.Password password] }
        else
          let claims : SessionClaims := { User := some user }
          match si.jwtGenerator.NewToken w2 si.sessionLength claims with
          | ((token, err1), user1, w3) =>
            if err1 ≠ none then
              { result := (User.zero, "", domain.WrapError err1 []), world := w3,
                calls := [Call.FindByEmail email, Call.Compare user.Password password,
                  Call.NewToken si.sessionLength claims] }
            else
              { result := (user1, token, none), world := w3,
                calls := [Call.FindByEmail email, Call.Compare user.Password password,
                  Call.NewToken si.sessionLength claims] }

/-- The method `sessionInteractor.RefreshSession`.  In the source the lookup
result is assigned to the parameter `user` itself; here it is called `latest`
so that the argument of the lookup stays readable.  The user returned at the
end is that variable read after `NewToken` was given a pointer to it:
`latest1`. -/
def sessionInteractor.RefreshSession {W : Type} (si : sessionInteractor W) (w : W)
    (user : domain.User) : Run W (domain.User × String × Option fail.Error) :=
  match si.userRepository.FindByEmail w user.Email with
  | ((latest, err), w1) =>
    if err ≠ none then
      { result := (User.zero, "", domain.WrapError err []), world := w1,
        calls := [Call.FindByEmail user.Email] }
    else if latest.ID = 0 then
      { result := (User.zero, "",
          domain.WrapError (some ErrUserDoesNotExist) [fail.Option.WithIgnorable]),
        world := w1, calls := [Call.FindByEmail user.Email] }
    else
      let claims : SessionClaims := { User := some latest }
      match si.jwtGenerator.NewToken w1 si.sessionLength claims with
      | ((token, err1), latest1, w2) =>
        if err1 ≠ none then
          { result := (User.zero, "", domain.WrapError err1 []), world := w2,
            calls := [Call.FindByEmail user.Email, Call.NewToken si.sessionLength claims] }
        else
          { result := (latest1, token, none), world := w2,
            calls := [Call.FindByEmail user.Email, Call.NewToken si.sessionLength claims] }

end usecases

namespace http

/-- The constant `http.StatusOK`. -/
def StatusOK : Nat := 200
/-- The constant `http.StatusCreated`. -/
def StatusCreated : Nat := 201
/-- The constant `http.StatusUnauthorized`. -/
def StatusUnauthorized : Nat := 401

/-- The constant `http.MethodGet`. -/
def MethodGet : String := "GET"
/-- The constant `http.MethodPost`. -/
def MethodPost : String := "POST"
/-- The constant `http.MethodPut`. -/
def MethodPut : String := "PUT"
/-- The constant `http.MethodPatch`. -/
def MethodPatch : String := "PATCH"
/-- The constant `http.MethodDelete`. -/
def MethodDelete : String := "DELETE"

end http

namespace services

open usecases

/-- The interface `usecases.SessionInteractor`, which is all the session service
sees of the interactor. -/
structure SessionInteractor (W : Type) where
  CreateUser : W → domain.User → Run W (Option fail.Error)
  CreateSession : W → String → String → Run W (domain.User × String × Option fail.Error)
  RefreshSession : W → domain.User → Run W (domain.User × String × Option fail.Error)

/-- The struct `SessionLoginBody`. -/
structure SessionLoginBody where
  Email : String
  Password : String
  deriving DecidableEq, Repr

/-- A value stored in the response map of type `map[string]interface{}`. -/
inductive Value where
  | str (s : String)
  | user (u : domain.User)
  deriving DecidableEq, Repr

/-- What a handler writes to the client through the context. -/
inductive Response where
  | NoContent (code : Nat)
  | JSON (code : Nat) (body : List (String × Value))
  deriving DecidableEq, Repr

/-- The status code of a response. -/
def Response.code : Response → Nat
  | Response.NoContent c => c
  | Response.JSON c _ => c

/-- The body of a response, when it has one. -/
def Response.body : Response → Option (List (String × Value))
  | Response.NoContent _ => none
  | Response.JSON _ b => some b

/-- A server-error status (5xx). -/
def Is5xx (code : Nat) : Prop := 500 ≤ code ∧ code < 600

/-- A client-error status (4xx). -/
def Is4xx (code : Nat) : Prop := 400 ≤ code ∧ code < 500

instance (code : Nat) : Decidable (Is5xx code) := by unfold Is5xx; infer_instance

instance (code : Nat) : Decidable (Is4xx code) := by unfold Is4xx; infer_instance

/-- The interface `Context`, declared outside the files at hand, as one request
presents it to the session service.  `Bind` fills the login body it is given,
`BindUser` is `Bind` on a `*domain.User`, `User` is the user of the verified
token (an error, or a user to dereference), and `NoContent` and `JSON` give the
error value the corresponding write returns. -/
structure Context where
  Bind : SessionLoginBody → SessionLoginBody × Option fail.Error
  BindUser : domain.User → domain.User × Option fail.Error
  User : Except fail.Error domain.User
  NoContent : Nat → Option fail.Error
  JSON : Nat → List (String × Value) → Option fail.Error

/-- What a handler leaves behind: the error it returns to the router, the
responses it wrote to the client, the world after it and the collaborator calls
made on its behalf. -/
structure Handled (W : Type) where
  err : Option fail.Error
  responses : List Response
  world : W
  calls : List Call

/-- The struct `sessionService`. -/
structure sessionService (W : Type) where
  SessionInteractor : SessionInteractor W

/-- The method `sessionService.Login`. -/
def sessionService.Login {W : Type} (s : sessionService W) (ctx : Context) (w : W) :
    Handled W :=
  match ctx.Bind { Email := "", Password := "" } with
  | (b, err) =>
    if err ≠ none then
      { err := domain.WrapError err [], responses := [], world := w, calls := [] }
    else
      let r := s.SessionInteractor.CreateSession w b.Email b.Password
      match r.result with
      | (user, token, err1) =>
        if err1 ≠ none then
          { err := domain.WrapError err1 [],
            responses := [Response.NoContent http.StatusUnauthorized],
            world := r.world, calls := r.calls }
        else
          let res : List (String × Value) := [("token", Value.str token), ("user", Value.user user)]
          { err := ctx.JSON http.StatusOK res,
            responses := [Response.JSON http.StatusOK res],
            world := r.world, calls := r.calls }

/-- The method `sessionService.Register`. -/
def sessionService.Register {W : Type} (s : sessionService W) (ctx : Context) (w : W) :
    Handled W :=
  match ctx.BindUser User.zero with
  | (user, err) =>
    if err ≠ none then
      { err := domain.WrapError err [], responses := [], world := w, calls := [] }
    else
      let user1 : domain.User :=
        { user with Role := some Role.RoleUser, Preferences := some { settings := [] } }
      let r := s.SessionInteractor.CreateUser w user1
      if r.result ≠ none then
        { err := domain.WrapError r.result [], responses := [], world := r.world,
          calls := r.calls }
      else
        { err := ctx.NoContent http.StatusCreated,
          responses := [Response.NoContent http.StatusCreated],
          world := r.world, calls := r.calls }

/-- The method `sessionService.Refresh`. -/
def sessionService.Refresh {W : Type} (s : sessionService W) (ctx : Context) (w : W) :
    Handled W :=
  match ctx.User with
  | Except.error err =>
    { err := domain.WrapError (some err) [], responses := [], world := w, calls := [] }
  | Except.ok sessionUser =>
    let r := s.SessionInteractor.RefreshSession w sessionUser
    match r.result with
    | (user, token, err1) =>
      if err1 ≠ none then
        { err := domain.WrapError err1 [],
          responses := [Response.NoContent http.StatusUnauthorized],
          world := r.world, calls := r.calls }
      else
        let res : List (String × Value) := [("token", Value.str token), ("user", Value.user user)]
        { err := ctx.JSON http.StatusOK res,
          responses := [Response.JSON http.StatusOK res],
          world := r.world, calls := r.calls }

/-- The field of the `Services` struct a handler belongs to. -/
inductive ServiceName where
  | Health
  | Session
  | User
  | Contest
  | Ranking
  | ContestLog
  deriving DecidableEq, Repr

/-- A method value such as `d.Services().Contest.Create`: the service and the
name of its method. -/
structure HandlerFunc where
  service : ServiceName
  method : String
  deriving DecidableEq, Repr

/-- The struct `services.Route`, declared outside the files at hand, with the
four fields the route table sets.  `MinRole := none` is a literal that leaves
the field out. -/
structure Route where
  Method : String
  Path : String
  HandlerFunc : HandlerFunc
  MinRole : Option domain.Role := none
  deriving DecidableEq, Repr

/-- The method, path and minimum role of a route. -/
def Route.surface (r : Route) : String × String × Option domain.Role :=
  (r.Method, r.Path, r.MinRole)

end services

namespace usecases

/-- The two ways a lookup can report that no user has the email: the zero user
without error, as `TestSessionInteractor_CreateSession` scripts it, or the
distinguished error `domain.ErrNotFound`. -/
def ReportsAbsence (r : domain.User × Option fail.Error) : Prop :=
  (r.2 = none ∧ r.1.ID = 0) ∨ IsErr r.2 domain.ErrNotFound

instance (r : domain.User × Option fail.Error) : Decidable (ReportsAbsence r) := by
  unfold ReportsAbsence; infer_instance

/-- A lower-level error, as a collaborator hands it over: it carries no
ignorable mark and is neither of the two sentinels of the interactor. -/
def LowerLevel (x : fail.Error) : Prop :=
  x.Ignorable = false ∧ x.Err ≠ ErrUserDoesNotExist.Err ∧ x.Err ≠ ErrPasswordIncorrect.Err

instance (x : fail.Error) : Decidable (LowerLevel x) := by
  unfold LowerLevel; infer_instance

/-- The function `NewSessionInteractor`: the struct seen through the interface. -/
def NewSessionInteractor {W : Type} (si : sessionInteractor W) : services.SessionInteractor W :=
  { CreateUser := si.CreateUser
    CreateSession := si.CreateSession
    RefreshSession := si.RefreshSession }

end usecases

namespace app

open services

/-- The method `serverDependencies.routes`.  The handlers are method values of
the services, which do not depend on the container's configuration. -/
def routes : List Route :=
  [ -- Service infra
    { Method := http.MethodGet, Path := "/ping", HandlerFunc := ⟨ServiceName.Health, "Ping"⟩ },
    -- Session
    { Method := http.MethodPost, Path := "/login", HandlerFunc := ⟨ServiceName.Session, "Login"⟩ },
    { Method := http.MethodPost, Path := "/register",
      HandlerFunc := ⟨ServiceName.Session, "Register"⟩ },
    { Method := http.MethodPost, Path := "/refresh",
      HandlerFunc := ⟨ServiceName.Session, "Refresh"⟩, MinRole := some Role.RoleUser },
    -- Users
    { Method := http.MethodPost, Path := "/users/update_password",
      HandlerFunc := ⟨ServiceName.User, "UpdatePassword"⟩, MinRole := some Role.RoleUser },
    { Method := http.MethodPost, Path := "/users/profile",
      HandlerFunc := ⟨ServiceName.User, "UpdateProfile"⟩, MinRole := some Role.RoleUser },
    -- Contests
    { Method := http.MethodGet, Path := "/contests", HandlerFunc := ⟨ServiceName.Contest, "All"⟩ },
    { Method := http.MethodGet, Path := "/contests/:id",
      HandlerFunc := ⟨ServiceName.Contest, "Get"⟩ },
    { Method := http.MethodPost, Path := "/contests",
      HandlerFunc := ⟨ServiceName.Contest, "Create"⟩, MinRole := some Role.RoleAdmin },
    { Method := http.MethodPut, Path := "/contests/:id",
      HandlerFunc := ⟨ServiceName.Contest, "Update"⟩, MinRole := some Role.RoleAdmin },
    -- Rankings
    { Method := http.MethodGet, Path := "/rankings/current",
      HandlerFunc := ⟨ServiceName.Ranking, "CurrentRegistration"⟩,
      MinRole := some Role.RoleUser },
    { Method := http.MethodGet, Path := "/rankings/registration",
      HandlerFunc := ⟨ServiceName.Ranking, "RankingsForRegistration"⟩ },
    { Method := http.MethodPost, Path := "/rankings",
      HandlerFunc := ⟨ServiceName.Ranking, "Create"⟩, MinRole := some Role.RoleUser },
    { Method := http.MethodGet, Path := "/rankings", HandlerFunc := ⟨ServiceName.Ranking, "Get"⟩ },
    -- Contest logs
    { Method := http.MethodPost, Path := "/contest_logs",
      HandlerFunc := ⟨ServiceName.ContestLog, "Create"⟩, MinRole := some Role.RoleUser },
    { Method := http.MethodGet, Path := "/contest_logs",
      HandlerFunc := ⟨ServiceName.ContestLog, "Get"⟩ },
    { Method := http.MethodPut, Path := "/contest_logs/:id",
      HandlerFunc := ⟨ServiceName.ContestLog, "Update"⟩, MinRole := some Role.RoleUser },
    { Method := http.MethodDelete, Path := "/contest_logs/:id",
      HandlerFunc := ⟨ServiceName.ContestLog, "Delete"⟩, MinRole := some Role.RoleUser } ]

/-- The HTTP surface as the specification lists it, line by line: method, path
and minimum role, where "(none)" is no minimum role. -/
def specHTTPSurface : List (String × String × Option domain.Role) :=
  [ ("GET", "/ping", none),
    ("POST", "/login", none),
    ("POST", "/register", none),
    ("POST", "/refresh", some Role.RoleUser),
    ("POST", "/users/update_password", some Role.RoleUser),
    ("POST", "/users/profile", some Role.RoleUser),
    ("GET", "/contests", none),
    ("GET", "/contests/:id", none),
    ("POST", "/contests", some Role.RoleAdmin),
    ("PUT", "/contests/:id", some Role.RoleAdmin),
    ("GET", "/rankings/current", some Role.RoleUser),
    ("GET", "/rankings/registration", none),
    ("POST", "/rankings", some Role.RoleUser),
    ("GET", "/rankings", none),
    ("POST", "/contest_logs", some Role.RoleUser),
    ("GET", "/contest_logs", some Role.RoleUser),
    ("PUT", "/contest_logs/:id", some Role.RoleUser),
    ("DELETE", "/contest_logs/:id", some Role.RoleUser) ]

/-- The method and path of an entry of a surface table. -/
def surfaceKey (e : String × String × Option domain.Role) : String × String :=
  (e.1, e.2.1)

/-- A mutating HTTP method: POST, PUT, DELETE or PATCH. -/
def isMutating (method : String) : Bool :=
  method == http.MethodPost || method == http.MethodPut || method == http.MethodDelete
    || method == http.MethodPatch

end app


/-! ## Dependency container

Each holder of `serverDependencies` is a cell `struct { result T; once sync.Once }`,
modelled by its result (`none` is nil) and the flag of its `sync.Once`.  An
instance is the address given to it when its constructor ran.  The container
also carries the list of the constructor runs made so far, which the source
does not have and no accessor reads. -/

namespace app

/-- The components held by the container, one per holder of `serverDependencies`. -/
inductive Component where
  | Router
  | ErrorReporter
  | JWTGenerator
  | RDB
  | SQLHandler
  | Repositories
  | Interactors
  | Services
  deriving DecidableEq, Repr

/-- A holder `struct { result T; once sync.Once }`. -/
structure Holder where
  result : Option Nat
  done : Bool
  deriving DecidableEq, Repr

/-- The struct `serverDependencies`: its eight holders, and `constructed`, the
constructor runs made so far with the instance each built, oldest first. -/
structure serverDependencies where
  router : Holder
  errorReporter : Holder
  jwtGenerator : Holder
  rdb : Holder
  sqlHandler : Holder
  repositories : Holder
  interactors : Holder
  services : Holder
  constructed : List (Component × Nat)
  deriving DecidableEq, Repr

/-- The function `NewServerDependencies`: `&serverDependencies{}`, every holder
at its zero value. -/
def NewServerDependencies : serverDependencies :=
  { router := { result := none, done := false }
    errorReporter := { result := none, done := false }
    jwtGenerator := { result := none, done := false }
    rdb := { result := none, done := false }
    sqlHandler := { result := none, done := false }
    repositories := { result := none, done := false }
    interactors := { result := none, done := false }
    services := { result := none, done := false }
    constructed := [] }

/-- The answers of the two constructors that can fail, `infra.NewErrorReporter`
and `infra.NewRDB`, both declared outside the files at hand: the error each
returns for the configuration of the container. -/
structure Environment where
  errorReporterErr : Option fail.Error
  rdbErr : Option fail.Error

/-- How a call on the container ends: it returns a value and leaves the
container in a new state, or the process exits in `log.Fatalf`. -/
inductive Outcome (α : Type) where
  | returned (value : α) (d : serverDependencies)
  | exited (d : serverDependencies)

/-- One run of the constructor of a component: the instance built gets a fresh
address, and the run is recorded. -/
def serverDependencies.construct (d : serverDependencies) (c : Component) :
    Nat × serverDependencies :=
  (d.constructed.length, { d with constructed := d.constructed ++ [(c, d.constructed.length)] })

/-- The method `serverDependencies.RDB`. -/
def serverDependencies.RDB (env : Environment) (d : serverDependencies) :
    Outcome (Option Nat) :=
  if d.rdb.done then Outcome.returned d.rdb.result d
  else
    match d.construct Component.RDB with
    | (inst, d1) =>
      if env.rdbErr ≠ none then Outcome.exited d1
      else Outcome.returned (some inst) { d1 with rdb := { result := some inst, done := true } }

/-- The method `serverDependencies.SQLHandler`. -/
def serverDependencies.SQLHandler (env : Environment) (d : serverDependencies) :
    Outcome (Option Nat) :=
  if d.sqlHandler.done then Outcome.returned d.sqlHandler.result d
  else
    match d.RDB env with
    | Outcome.exited d1 => Outcome.exited d1
    | Outcome.returned _ d1 =>
      match d1.construct Component.SQLHandler with
      | (inst, d2) =>
        Outcome.returned (some inst)
          { d2 with sqlHandler := { result := some inst, done := true } }

/-- The method `serverDependencies.Repositories`. -/
def serverDependencies.Repositories (env : Environment) (d : serverDependencies) :
    Outcome (Option Nat) :=
  if d.repositories.done then Outcome.returned d.repositories.result d
  else
    match d.SQLHandler env with
    | Outcome.exited d1 => Outcome.exited d1
    | Outcome.returned _ d1 =>
      match d1.construct Component.Repositories with
      | (inst, d2) =>
        Outcome.returned (some inst)
          { d2 with repositories := { result := some inst, done := true } }

/-- The method `serverDependencies.JWTGenerator`. -/
def serverDependencies.JWTGenerator (_ : Environment) (d : serverDependencies) :
    Outcome (Option Nat) :=
  if d.jwtGenerator.done then Outcome.returned d.jwtGenerator.result d
  else
    match d.construct Component.JWTGenerator with
    | (inst, d1) =>
      Outcome.returned (some inst)
        { d1 with jwtGenerator := { result := some inst, done := true } }

/-- The method `serverDependencies.Interactors`: the arguments of
`NewInteractors` are evaluated from left to right. -/
def serverDependencies.Interactors (env : Environment) (d : serverDependencies) :
    Outcome (Option Nat) :=
  if d.interactors.done then Outcome.returned d.interactors.result d
  else
    match d.Repositories env with
    | Outcome.exited d1 => Outcome.exited d1
    | Outcome.returned _ d1 =>
      match d1.JWTGenerator env with
      | Outcome.exited d2 => Outcome.exited d2
      | Outcome.returned _ d2 =>
        match d2.construct Component.Interactors with
        | (inst, d3) =>
          Outcome.returned (some inst)
            { d3 with interactors := { result := some inst, done := true } }

/-- The method `serverDependencies.Services`. -/
def serverDependencies.Services (env : Environment) (d : serverDependencies) :
    Outcome (Option Nat) :=
  if d.services.done then Outcome.returned d.services.result d
  else
    match d.Interactors env with
    | Outcome.exited d1 => Outcome.exited d1
    | Outcome.returned _ d1 =>
      match d1.construct Component.Services with
      | (inst, d2) =>
        Outcome.returned (some inst)
          { d2 with services := { result := some inst, done := true } }

/-- The method `serverDependencies.ErrorReporter`. -/
def serverDependencies.ErrorReporter (env : Environment) (d : serverDependencies) :
    Outcome (Option Nat) :=
  if d.errorReporter.done then Outcome.returned d.errorReporter.result d
  else
    match d.construct Component.ErrorReporter with
    | (inst, d1) =>
      if env.errorReporterErr ≠ none then Outcome.exited d1
      else
        Outcome.returned (some inst)
          { d1 with errorReporter := { result := some inst, done := true } }

/-- The calls to `d.Services()` made while the entries of a route table are
built, one per entry, in order. -/
def serverDependencies.routesFrom (env : Environment) :
    List services.Route → serverDependencies → Outcome (List services.Route)
  | [], d => Outcome.returned [] d
  | r :: rs, d =>
    match d.Services env with
    | Outcome.exited d1 => Outcome.exited d1
    | Outcome.returned _ d1 =>
      match serverDependencies.routesFrom env rs d1 with
      | Outcome.exited d2 => Outcome.exited d2
      | Outcome.returned out d2 => Outcome.returned (r :: out) d2

/-- The method `serverDependencies.routes` as the container sees it: every one
of its entries takes its handler from `d.Services()`. -/
def serverDependencies.routes (env : Environment) (d : serverDependencies) :
    Outcome (List services.Route) :=
  serverDependencies.routesFrom env app.routes d

/-- The method `serverDependencies.Router`: the arguments of `infra.NewRouter`
are evaluated from left to right, the error reporter before the routes. -/
def serverDependencies.Router (env : Environment) (d : serverDependencies) :
    Outcome (Option Nat) :=
  if d.router.done then Outcome.returned d.router.result d
  else
    match d.ErrorReporter env with
    | Outcome.exited d1 => Outcome.exited d1
    | Outcome.returned _ d1 =>
      match d1.routes env with
      | Outcome.exited d2 => Outcome.exited d2
      | Outcome.returned _ d2 =>
        match d2.construct Component.Router with
        | (inst, d3) =>
          Outcome.returned (some inst)
            { d3 with router := { result := some inst, done := true } }

/-- The accessor of a component. -/
def serverDependencies.call (env : Environment) (c : Component) (d : serverDependencies) :
    Outcome (Option Nat) :=
  match c with
  | Component.Router => d.Router env
  | Component.ErrorReporter => d.ErrorReporter env
  | Component.JWTGenerator => d.JWTGenerator env
  | Component.RDB => d.RDB env
  | Component.SQLHandler => d.SQLHandler env
  | Component.Repositories => d.Repositories env
  | Component.Interactors => d.Interactors env
  | Component.Services => d.Services env

/-- The holder of a component. -/
def serverDependencies.holder (d : serverDependencies) (c : Component) : Holder :=
  match c with
  | Component.Router => d.router
  | Component.ErrorReporter => d.errorReporter
  | Component.JWTGenerator => d.jwtGenerator
  | Component.RDB => d.rdb
  | Component.SQLHandler => d.sqlHandler
  | Component.Repositories => d.repositories
  | Component.Interactors => d.interactors
  | Component.Services => d.services

/-- The instances built for a component so far, oldest first. -/
def serverDependencies.built (d : serverDependencies) (c : Component) : List Nat :=
  (d.constructed.filter (fun e => decide (e.1 = c))).map Prod.snd

/-- The components the accessor of a component needs: itself and, through the
accessors its constructor call evaluates, those they need. -/
def needs (c : Component) : List Component :=
  match c with
  | Component.RDB => [Component.RDB]
  | Component.SQLHandler => [Component.SQLHandler, Component.RDB]
  | Component.Repositories => [Component.Repositories, Component.SQLHandler, Component.RDB]
  | Component.JWTGenerator => [Component.JWTGenerator]
  | Component.Interactors =>
    [Component.Interactors, Component.Repositories, Component.SQLHandler, Component.RDB,
      Component.JWTGenerator]
  | Component.Services =>
    [Component.Services, Component.Interactors, Component.Repositories, Component.SQLHandler,
      Component.RDB, Component.JWTGenerator]
  | Component.ErrorReporter => [Component.ErrorReporter]
  | Component.Router =>
    [Component.Router, Component.ErrorReporter, Component.Services, Component.Interactors,
      Component.Repositories, Component.SQLHandler, Component.RDB, Component.JWTGenerator]

/-- What a sequence of accessor calls leaves behind: the value each call
returned, the container at the end, and whether the process exited. -/
structure Trace where
  returns : List (Component × Option Nat)
  final : serverDependencies
  exited : Bool

/-- A sequence of calls to accessors on one container, in order; it stops
when the process exits. -/
def serverDependencies.callAll (env : Environment) :
    List Component → serverDependencies → Trace
  | [], d => { returns := [], final := d, exited := false }
  | c :: cs, d =>
    match d.call env c with
    | Outcome.exited d1 => { returns := [], final := d1, exited := true }
    | Outcome.returned v d1 =>
      { returns := (c, v) :: (serverDependencies.callAll env cs d1).returns
        final := (serverDependencies.callAll env cs d1).final
        exited := (serverDependencies.callAll env cs d1).exited }

/-- The state a container is in between calls: a holder that is done holds
the one instance built for its component, nothing was built for a holder that
is not done, and when a holder is done so are those of the components it
needs. -/
def serverDependencies.Consistent (d : serverDependencies) : Prop :=
  (∀ c, (d.holder c).done = true →
    ∃ a, (d.holder c).result = some a ∧ d.built c = [a]) ∧
  (∀ c, (d.holder c).done = false → d.built c = []) ∧
  (∀ c, (d.holder c).done = true → ∀ c1 ∈ needs c, (d.holder c1).done = true)

/-- The container with the holder of a component replaced. -/
def serverDependencies.assign (d : serverDependencies) (c : Component) (h : Holder) :
    serverDependencies :=
  match c with
  | Component.Router => { d with router := h }
  | Component.ErrorReporter => { d with errorReporter := h }
  | Component.JWTGenerator => { d with jwtGenerator := h }
  | Component.RDB => { d with rdb := h }
  | Component.SQLHandler => { d with sqlHandler := h }
  | Component.Repositories => { d with repositories := h }
  | Component.Interactors => { d with interactors := h }
  | Component.Services => { d with services := h }

/-- A container state reached from another by calls that only concern the
components of a list: the new state is consistent, holders that were done and
holders outside the list are untouched, and the constructor runs added are
runs for components of the list. -/
def serverDependencies.Reaches (S : List Component) (d d1 : serverDependencies) : Prop :=
  d1.Consistent ∧
  (∀ c, (d.holder c).done = true → d1.holder c = d.holder c) ∧
  (∀ c, c ∉ S → d1.holder c = d.holder c) ∧
  (∃ new, d1.constructed = d.constructed ++ new ∧ ∀ e ∈ new, e.1 ∈ S)

/-- A container state in which the process exited during calls that only
concern the components of a list: no component was built twice, and the
constructor runs added are runs for components of the list. -/
def serverDependencies.ExitsAt (S : List Component) (d d1 : serverDependencies) : Prop :=
  (∀ c, (d1.built c).length ≤ 1) ∧
  (∃ new, d1.constructed = d.constructed ++ new ∧ ∀ e ∈ new, e.1 ∈ S)

/-- What the accessor of a component owes: if it returns, the state reached
concerns only the components it needs, its holder is done and the value
returned is the result of its holder; if the process exits, no component was
built twice. -/
def serverDependencies.Meets (c : Component) (d : serverDependencies) :
    Outcome (Option Nat) → Prop
  | Outcome.returned v d1 =>
    d.Reaches (needs c) d1 ∧ (d1.holder c).done = true ∧ v = (d1.holder c).result
  | Outcome.exited d1 => d.ExitsAt (needs c) d1

end app

/-! ## Test doubles

Collaborators with scripted answers, in the manner of the mocks of
`session_interactor_test.go`.  Their world is a counter of the calls served. -/

namespace usecases_test

open usecases services

/-- The value `sessionLength` of the tests: one hour, in nanoseconds. -/
def sessionLength : Nat := 3600000000000

/-- The stored user of the happy path of `TestSessionInteractor_CreateSession`. -/
def dbUser : domain.User :=
  { ID := 1, Email := "foo@bar.com", DisplayName := "", Password := "foobar",
    Role := some Role.RoleUser, Preferences := none }

/-- A session interactor over scripted collaborators, with a token generator
that leaves `write u` behind the pointer to the user `u` of the claims. -/
def scriptedWriting (find : String → domain.User × Option fail.Error)
    (store : domain.User → Option fail.Error)
    (hash : String → String × Option fail.Error)
    (compare : String → String → Bool)
    (newToken : Nat → SessionClaims → String × Option fail.Error)
    (write : domain.User → domain.User) : sessionInteractor Nat :=
  { userRepository :=
      { Store := fun w u => (store u, w + 1)
        FindByEmail := fun w e => (find e, w + 1) }
    passwordHasher :=
      { Hash := fun w p => (hash p, w + 1)
        Compare := fun w h p => (compare h p, w + 1) }
    jwtGenerator :=
      { NewToken := fun w l c => (newToken l c, write (c.User.getD User.zero), w + 1) }
    sessionLength := sessionLength
    NeedsHashing := fun u => decide (u.Password ≠ "") }

/-- A session interactor over scripted collaborators whose token generator does
not write through the pointer of the claims, like the mock of the tests. -/
def scripted (find : String → domain.User × Option fail.Error)
    (store : domain.User → Option fail.Error)
    (hash : String → String × Option fail.Error)
    (compare : String → String → Bool)
    (newToken : Nat → SessionClaims → String × Option fail.Error) : sessionInteractor Nat :=
  scriptedWriting find store hash compare newToken (fun u => u)

/-- A repository lookup that knows `dbUser` and answers the zero user, without
error, for any other email. -/
def findDbUser (email : String) : domain.User × Option fail.Error :=
  if email = "foo@bar.com" then (dbUser, none) else (User.zero, none)

/-- A repository lookup that knows nobody and says so with `domain.ErrNotFound`. -/
def findNotFound (_ : String) : domain.User × Option fail.Error :=
  (User.zero, some domain.ErrNotFound)

/-- A repository lookup whose database is unreachable. -/
def findUnreachable (_ : String) : domain.User × Option fail.Error :=
  (User.zero, some (fail.New "dial tcp: connection refused"))

/-- The interactor of the tests: `dbUser` is stored, hashing gives "barbar",
a password matches when it equals the stored one, and the token is "token". -/
def interactor : sessionInteractor Nat :=
  scripted findDbUser (fun _ => none) (fun _ => ("barbar", none))
    (fun h p => decide (h = p)) (fun _ _ => ("token", none))

/-- The interactor of the tests over a repository that reports absence with
`domain.ErrNotFound`. -/
def interactorNotFound : sessionInteractor Nat :=
  scripted findNotFound (fun _ => none) (fun _ => ("barbar", none))
    (fun h p => decide (h = p)) (fun _ _ => ("token", none))

/-- The interactor of the tests over an unreachable database. -/
def interactorUnreachable : sessionInteractor Nat :=
  scripted findUnreachable (fun _ => none) (fun _ => ("barbar", none))
    (fun h p => decide (h = p)) (fun _ _ => ("token", none))

/-- The interactor of the tests with a token generator that cannot sign. -/
def interactorNoSigning : sessionInteractor Nat :=
  scripted findDbUser (fun _ => none) (fun _ => ("barbar", none))
    (fun h p => decide (h = p)) (fun _ _ => ("", some (fail.New "key is invalid")))

/-- A request context: the body binds to the given login, the token carries
the given user, and every write succeeds. -/
def context (email password : String) (sessionUser : domain.User) : Context :=
  { Bind := fun _ => ({ Email := email, Password := password }, none)
    BindUser := fun u => ({ u with Email := email, Password := password }, none)
    User := Except.ok sessionUser
    NoContent := fun _ => none
    JSON := fun _ _ => none }

/-- A repository lookup that fails with an error its author already marked
ignorable. -/
def findMarked (_ : String) : domain.User × Option fail.Error :=
  (User.zero, some { Err := "row is locked", Ignorable := true })

/-- A repository lookup that reports absence by returning the sentinel
`ErrUserDoesNotExist` itself, as `fail.New` built it. -/
def findSentinel (_ : String) : domain.User × Option fail.Error :=
  (User.zero, some ErrUserDoesNotExist)

/-- The interactor of the tests over the repository of `findMarked`. -/
def interactorMarked : sessionInteractor Nat :=
  scripted findMarked (fun _ => none) (fun _ => ("barbar", none))
    (fun h p => decide (h = p)) (fun _ _ => ("token", none))

/-- The interactor of the tests over the repository of `findSentinel`. -/
def interactorSentinel : sessionInteractor Nat :=
  scripted findSentinel (fun _ => none) (fun _ => ("barbar", none))
    (fun h p => decide (h = p)) (fun _ _ => ("token", none))

/-- The interactor of the tests with a token generator that, before signing,
blanks the password of the user its claims point to. -/
def interactorScrubbing : sessionInteractor Nat :=
  scriptedWriting findDbUser (fun _ => none) (fun _ => ("barbar", none))
    (fun h p => decide (h = p)) (fun _ _ => ("token", none))
    (fun u => { u with Password := "" })

/-- The interactor of the tests with a hasher that returns its input. -/
def interactorPlainHash : sessionInteractor Nat :=
  scripted findDbUser (fun _ => none) (fun p => (p, none))
    (fun h p => decide (h = p)) (fun _ _ => ("token", none))

/-- A repository lookup that knows `dbUser`, fails for "down@bar.com" and
answers the zero user, without error, for any other email. -/
def findFlaky (email : String) : domain.User × Option fail.Error :=
  if email = "foo@bar.com" then (dbUser, none)
  else if email = "down@bar.com" then (User.zero, some (fail.New "dial tcp: connection refused"))
  else (User.zero, none)

/-- The interactor of the tests over the repository of `findFlaky` and with a
token generator that cannot sign. -/
def interactorFlaky : sessionInteractor Nat :=
  scripted findFlaky (fun _ => none) (fun _ => ("barbar", none))
    (fun h p => decide (h = p)) (fun _ _ => ("", some (fail.New "key is invalid")))

/-- The interactor of the tests with a hasher that fails. -/
def interactorNoHashing : sessionInteractor Nat :=
  scripted findDbUser (fun _ => none) (fun _ => ("", some (fail.New "password too long")))
    (fun h p => decide (h = p)) (fun _ _ => ("token", none))

/-- A request context for Register: the body binds to the given user, field by
field, and every write succeeds. -/
def registerContext (body : domain.User) : Context :=
  { Bind := fun b => (b, none)
    BindUser := fun _ => (body, none)
    User := Except.error (fail.New "no token")
    NoContent := fun _ => none
    JSON := fun _ _ => none }

/-- A registration body that asks for the Admin role and carries preferences. -/
def forgedBody : domain.User :=
  { ID := 0, Email := "foo@bar.com", DisplayName := "John Doe", Password := "foobar",
    Role := some Role.RoleAdmin, Preferences := some { settings := [("theme", "dark")] } }

/-- The caller of `TestSessionInteractor_RefreshSession`, with a stale name. -/
def staleUser : domain.User :=
  { ID := 1, Email := "foo@bar.com", DisplayName := "foo", Password := "foobar",
    Role := some Role.RoleUser, Preferences := none }

/-- A caller object for the same email with a forged identity and role. -/
def forgedUser : domain.User :=
  { ID := 7, Email := "foo@bar.com", DisplayName := "root", Password := "",
    Role := some Role.RoleAdmin, Preferences := some { settings := [("theme", "dark")] } }

/-- The user of `TestSessionInteractor_CreateUser`. -/
def newUser : domain.User :=
  { ID := 0, Email := "foo@bar.com", DisplayName := "John Doe", Password := "foobar",
    Role := none, Preferences := none }

end usecases_test

/-! ## Session interactor -/

namespace usecases

/-- Wrapping without options gives the error back. -/
theorem WrapError_nil (err : Option fail.Error) : domain.WrapError err [] = err := by
  cases err <;> rfl

/-- C1, as stated, fails: with a token generator that blanks the password of
the user its claims point to, the lookup returns without error the stored
user, whose ID is not zero, Compare is true and the generator succeeds, yet
the user CreateSession returns is not the user the repository returned. -/
theorem CreateSession_returns_user_as_generator_left_it :
    (usecases_test.interactorScrubbing.userRepository.FindByEmail 0 "foo@bar.com").1
      = (usecases_test.dbUser, none) ∧
    usecases_test.dbUser.ID ≠ 0 ∧
    (usecases_test.interactorScrubbing.passwordHasher.Compare 1
      usecases_test.dbUser.Password "foobar").1 = true ∧
    (usecases_test.interactorScrubbing.jwtGenerator.NewToken 2 usecases_test.sessionLength
      { User := some usecases_test.dbUser }).1 = ("token", none) ∧
    (usecases_test.interactorScrubbing.CreateSession 0 "foo@bar.com" "foobar").result.2.2
      = none ∧
    (usecases_test.interactorScrubbing.CreateSession 0 "foo@bar.com" "foobar").result.1
      ≠ usecases_test.dbUser ∧
    (usecases_test.interactorScrubbing.CreateSession 0 "foo@bar.com" "foobar").result.1
      = { usecases_test.dbUser with Password := "" } := by
  decide

/-- C1, amended. CreateSession success: when the lookup returns, without error,
a user with non-zero ID, Compare(stored password, password) is true and the
token generator succeeds, CreateSession returns a nil error and exactly the
generated token; the generator was asked for the configured session length and
for claims whose user points to that stored user; and the user returned is
that user as the generator left it behind the pointer, which is exactly the
user the repository returned whenever the generator does not write through
the pointer. -/
theorem CreateSession_success {W : Type} (si : sessionInteractor W) (w w1 w2 w3 : W)
    (email password token : String) (stored left : domain.User)
    (hFind : si.userRepository.FindByEmail w email = ((stored, none), w1))
    (hID : stored.ID ≠ 0)
    (hCompare : si.passwordHasher.Compare w1 stored.Password password = (true, w2))
    (hToken : si.jwtGenerator.NewToken w2 si.sessionLength { User := some stored }
      = ((token, none), left, w3)) :
    (si.CreateSession w email password).result = (left, token, none) ∧
    (si.CreateSession w email password).calls =
      [Call.FindByEmail email, Call.Compare stored.Password password,
       Call.NewToken si.sessionLength { User := some stored }] ∧
    (si.CreateSession w email password).world = w3 ∧
    (left = stored → (si.CreateSession w email password).result = (stored, token, none)) := by
  have hres : (si.CreateSession w email password).result = (left, token, none) := by
    simp [sessionInteractor.CreateSession, hFind, hID, hCompare, hToken]
  refine ⟨hres, ?_, ?_, fun h => by rw [hres, h]⟩
  · simp [sessionInteractor.CreateSession, hFind, hID, hCompare, hToken]
  · simp [sessionInteractor.CreateSession, hFind, hID, hCompare, hToken]

/-- Witness of C1 (amended) on the happy path of the test, whose token
generator does not write through the pointer. -/
theorem CreateSession_success_witness :
    (usecases_test.interactor.CreateSession 0 "foo@bar.com" "foobar").result
      = (usecases_test.dbUser, "token", none) ∧
    (usecases_test.interactor.CreateSession 0 "foo@bar.com" "foobar").calls =
      [Call.FindByEmail "foo@bar.com", Call.Compare "foobar" "foobar",
       Call.NewToken usecases_test.sessionLength { User := some usecases_test.dbUser }] ∧
    (usecases_test.interactor.CreateSession 0 "foo@bar.com" "foobar").world = 3 ∧
    (usecases_test.dbUser = usecases_test.dbUser →
      (usecases_test.interactor.CreateSession 0 "foo@bar.com" "foobar").result
        = (usecases_test.dbUser, "token", none)) :=
  CreateSession_success usecases_test.interactor 0 1 2 3 "foo@bar.com" "foobar" "token"
    usecases_test.dbUser usecases_test.dbUser (by decide) (by decide) (by decide) (by decide)

/-- C2, as stated, fails: a repository that reports the absence of the email
with the not-found error makes CreateSession return that error, wrapped and not
ignorable, which is not UserDoesNotExist. -/
theorem CreateSession_absence_by_error_is_generic :
    ReportsAbsence (usecases_test.interactorNotFound.userRepository.FindByEmail 0 "bar@bar.com").1 ∧
    ¬ IsErr (usecases_test.interactorNotFound.CreateSession 0 "bar@bar.com" "foobar").result.2.2
        ErrUserDoesNotExist ∧
    (usecases_test.interactorNotFound.CreateSession 0 "bar@bar.com" "foobar").result.2.2
      = some { Err := "not found", Ignorable := false } := by
  decide

/-- C2, amended. When the lookup reports no user, CreateSession makes no call
beyond the lookup (neither hasher nor token generator is invoked) and returns
the zero user and the empty token; if the absence was reported as the zero user
without error, the error is UserDoesNotExist, marked ignorable; if the lookup
returned an error, that very error is what CreateSession returns, so that it
is UserDoesNotExist exactly when the error of the lookup already is, and is
not when the lookup reported the not-found error. -/
theorem CreateSession_absent {W : Type} (si : sessionInteractor W) (w w1 : W)
    (email password : String) (found : domain.User) (err : Option fail.Error)
    (hFind : si.userRepository.FindByEmail w email = ((found, err), w1))
    (hAbsent : err ≠ none ∨ found.ID = 0) :
    (si.CreateSession w email password).calls = [Call.FindByEmail email] ∧
    (si.CreateSession w email password).result.1 = User.zero ∧
    (si.CreateSession w email password).result.2.1 = "" ∧
    (err = none →
      (si.CreateSession w email password).result.2.2
        = some { Err := ErrUserDoesNotExist.Err, Ignorable := true } ∧
      IsErr (si.CreateSession w email password).result.2.2 ErrUserDoesNotExist) ∧
    (err ≠ none → (si.CreateSession w email password).result.2.2 = err) ∧
    (err ≠ none →
      (IsErr (si.CreateSession w email password).result.2.2 ErrUserDoesNotExist ↔
        IsErr err ErrUserDoesNotExist)) ∧
    (IsErr err domain.ErrNotFound →
      IsErr (si.CreateSession w email password).result.2.2 domain.ErrNotFound ∧
      ¬ IsErr (si.CreateSession w email password).result.2.2 ErrUserDoesNotExist) := by
  have hgen : err ≠ none → (si.CreateSession w email password).result.2.2 = err := by
    intro he
    simp [sessionInteractor.CreateSession, hFind, he, WrapError_nil]
  refine ⟨?_, ?_, ?_, ?_, hgen, ?_, ?_⟩
  · unfold sessionInteractor.CreateSession
    rw [hFind]
    by_cases he : err = none
    · have hz : found.ID = 0 := by
        rcases hAbsent with h | h
        · exact absurd he h
        · exact h
      simp [he, hz]
    · simp [he]
  · unfold sessionInteractor.CreateSession
    rw [hFind]
    by_cases he : err = none
    · have hz : found.ID = 0 := by
        rcases hAbsent with h | h
        · exact absurd he h
        · exact h
      simp [he, hz]
    · simp [he]
  · unfold sessionInteractor.CreateSession
    rw [hFind]
    by_cases he : err = none
    · have hz : found.ID = 0 := by
        rcases hAbsent with h | h
        · exact absurd he h
        · exact h
      simp [he, hz]
    · simp [he]
  · intro he
    have hz : found.ID = 0 := by
      rcases hAbsent with h | h
      · exact absurd he h
      · exact h
    subst he
    simp [sessionInteractor.CreateSession, hFind, hz, domain.WrapError, fail.Option.apply,
      ErrUserDoesNotExist, fail.New, IsErr]
  · intro he
    rw [hgen he]
  · intro hnf
    have he : err ≠ none := by
      rintro rfl
      obtain ⟨x, hx, _⟩ := hnf
      cases hx
    rw [hgen he]
    refine ⟨hnf, ?_⟩
    rintro ⟨x, hx, hxe⟩
    obtain ⟨y, hy, hye⟩ := hnf
    rw [hx] at hy
    cases hy
    rw [hxe] at hye
    revert hye
    decide

/-- Witness of C2 (amended) on the sad path of the test, an unknown email
answered with the zero user, and on a repository that answers with the
not-found error. -/
theorem CreateSession_absent_witness :
    ((usecases_test.interactor.CreateSession 0 "bar@bar.com" "foobar").calls
      = [Call.FindByEmail "bar@bar.com"] ∧
     (usecases_test.interactor.CreateSession 0 "bar@bar.com" "foobar").result
      = (User.zero, "", some { Err := ErrUserDoesNotExist.Err, Ignorable := true })) ∧
    ((usecases_test.interactorNotFound.CreateSession 0 "bar@bar.com" "foobar").calls
      = [Call.FindByEmail "bar@bar.com"] ∧
     (usecases_test.interactorNotFound.CreateSession 0 "bar@bar.com" "foobar").result.2.2
      = some domain.ErrNotFound ∧
     ¬ IsErr (usecases_test.interactorNotFound.CreateSession 0 "bar@bar.com"
        "foobar").result.2.2 ErrUserDoesNotExist) :=
  ⟨⟨(CreateSession_absent usecases_test.interactor 0 1 "bar@bar.com" "foobar" User.zero none
        (by decide) (Or.inr (by decide))).1,
    Prod.ext
      (CreateSession_absent usecases_test.interactor 0 1 "bar@bar.com" "foobar" User.zero none
        (by decide) (Or.inr (by decide))).2.1
      (Prod.ext
        (CreateSession_absent usecases_test.interactor 0 1 "bar@bar.com" "foobar" User.zero
          none (by decide) (Or.inr (by decide))).2.2.1
        ((CreateSession_absent usecases_test.interactor 0 1 "bar@bar.com" "foobar" User.zero
          none (by decide) (Or.inr (by decide))).2.2.2.1 rfl).1)⟩,
   ⟨(CreateSession_absent usecases_test.interactorNotFound 0 1 "bar@bar.com" "foobar"
        User.zero (some domain.ErrNotFound) (by decide) (Or.inl (by decide))).1,
    (CreateSession_absent usecases_test.interactorNotFound 0 1 "bar@bar.com" "foobar"
        User.zero (some domain.ErrNotFound) (by decide) (Or.inl (by decide))).2.2.2.2.1
        (by decide),
    ((CreateSession_absent usecases_test.interactorNotFound 0 1 "bar@bar.com" "foobar"
        User.zero (some domain.ErrNotFound) (by decide) (Or.inl (by decide))).2.2.2.2.2.2
        (by decide)).2⟩⟩

/-- C3. CreateSession with a known email and a wrong password: when the lookup
returns, without error, a user with non-zero ID and Compare(stored password,
password) is false, CreateSession returns PasswordIncorrect (marked ignorable)
with the zero user and no token, and the token generator is never invoked. -/
theorem CreateSession_wrong_password {W : Type} (si : sessionInteractor W) (w w1 w2 : W)
    (email password : String) (stored : domain.User)
    (hFind : si.userRepository.FindByEmail w email = ((stored, none), w1))
    (hID : stored.ID ≠ 0)
    (hCompare : si.passwordHasher.Compare w1 stored.Password password = (false, w2)) :
    (si.CreateSession w email password).result
      = (User.zero, "", some { Err := ErrPasswordIncorrect.Err, Ignorable := true }) ∧
    IsErr (si.CreateSession w email password).result.2.2 ErrPasswordIncorrect ∧
    (si.CreateSession w email password).calls
      = [Call.FindByEmail email, Call.Compare stored.Password password] ∧
    (∀ lifetime claims,
      Call.NewToken lifetime claims ∉ (si.CreateSession w email password).calls) := by
  simp [sessionInteractor.CreateSession, hFind, hID, hCompare, domain.WrapError,
    fail.Option.apply, ErrPasswordIncorrect, fail.New, IsErr]

/-- Witness of C3 on the stored user of the test and a wrong password. -/
theorem CreateSession_wrong_password_witness :
    (usecases_test.interactor.CreateSession 0 "foo@bar.com" "barbar").result
      = (User.zero, "", some { Err := ErrPasswordIncorrect.Err, Ignorable := true }) ∧
    IsErr (usecases_test.interactor.CreateSession 0 "foo@bar.com" "barbar").result.2.2
      ErrPasswordIncorrect ∧
    (usecases_test.interactor.CreateSession 0 "foo@bar.com" "barbar").calls
      = [Call.FindByEmail "foo@bar.com", Call.Compare "foobar" "barbar"] ∧
    (∀ lifetime claims, Call.NewToken lifetime claims ∉
      (usecases_test.interactor.CreateSession 0 "foo@bar.com" "barbar").calls) :=
  CreateSession_wrong_password usecases_test.interactor 0 1 2 "foo@bar.com" "barbar"
    usecases_test.dbUser (by decide) (by decide) (by decide)

/-- C4, as stated, fails: with a token generator that blanks the password of
the user its claims point to, RefreshSession succeeds, the claims issued embed
the repository's current user, yet the user returned is not that user. -/
theorem RefreshSession_returns_user_as_generator_left_it :
    (usecases_test.interactorScrubbing.userRepository.FindByEmail 0
      usecases_test.staleUser.Email).1 = (usecases_test.dbUser, none) ∧
    (usecases_test.interactorScrubbing.RefreshSession 0 usecases_test.staleUser).result.2.2
      = none ∧
    (usecases_test.interactorScrubbing.RefreshSession 0 usecases_test.staleUser).calls
      = [Call.FindByEmail "foo@bar.com",
         Call.NewToken usecases_test.sessionLength { User := some usecases_test.dbUser }] ∧
    (usecases_test.interactorScrubbing.RefreshSession 0 usecases_test.staleUser).result.1
      ≠ usecases_test.dbUser ∧
    (usecases_test.interactorScrubbing.RefreshSession 0 usecases_test.staleUser).result.1
      = { usecases_test.dbUser with Password := "" } := by
  decide

/-- C4, amended. RefreshSession re-fetches the user and does not trust the
caller: two caller objects with the same Email, whatever their other fields,
give the same run against the same repository and token generator (same
result, same world, same calls); the first call of every run is the lookup by
the caller's email; when that lookup returns, without error, a user with
non-zero ID and the token generator succeeds on the claims pointing to that
user, RefreshSession succeeds after exactly these two calls and returns that
user as the generator left it behind the pointer, which is the repository's
current user whenever the generator does not write through the pointer; and
RefreshSession succeeds in no other way. -/
theorem RefreshSession_ignores_caller {W : Type} (si : sessionInteractor W) (w : W)
    (caller other : domain.User) (hEmail : caller.Email = other.Email) :
    si.RefreshSession w caller = si.RefreshSession w other ∧
    (∃ rest, (si.RefreshSession w caller).calls = Call.FindByEmail caller.Email :: rest) ∧
    (∀ found w1 token left w2,
      si.userRepository.FindByEmail w caller.Email = ((found, none), w1) →
      found.ID ≠ 0 →
      si.jwtGenerator.NewToken w1 si.sessionLength { User := some found }
        = ((token, none), left, w2) →
      (si.RefreshSession w caller).result = (left, token, none) ∧
      (si.RefreshSession w caller).calls =
        [Call.FindByEmail caller.Email,
         Call.NewToken si.sessionLength { User := some found }] ∧
      (left = found → (si.RefreshSession w caller).result = (found, token, none))) ∧
    (∀ latest token, (si.RefreshSession w caller).result = (latest, token, none) →
      ∃ found w1 w2,
        si.userRepository.FindByEmail w caller.Email = ((found, none), w1) ∧
        found.ID ≠ 0 ∧
        si.jwtGenerator.NewToken w1 si.sessionLength { User := some found }
          = ((token, none), latest, w2) ∧
        (si.RefreshSession w caller).calls =
          [Call.FindByEmail caller.Email,
           Call.NewToken si.sessionLength { User := some found }]) := by
  refine ⟨by simp [sessionInteractor.RefreshSession, hEmail], ?_, ?_, ?_⟩
  · unfold sessionInteractor.RefreshSession
    rcases si.userRepository.FindByEmail w caller.Email with ⟨⟨found, err⟩, w1⟩
    rcases si.jwtGenerator.NewToken w1 si.sessionLength { User := some found }
      with ⟨⟨tok, err1⟩, left, w2⟩
    simp only
    split_ifs <;> simp
  · intro found w1 token left w2 hFind hID hTok
    have hres : (si.RefreshSession w caller).result = (left, token, none) := by
      simp [sessionInteractor.RefreshSession, hFind, hID, hTok]
    refine ⟨hres, ?_, fun h => by rw [hres, h]⟩
    simp [sessionInteractor.RefreshSession, hFind, hID, hTok]
  · intro latest token hres
    unfold sessionInteractor.RefreshSession at hres ⊢
    rcases hFind : si.userRepository.FindByEmail w caller.Email with ⟨⟨found, err⟩, w1⟩
    rw [hFind] at hres
    cases err with
    | some e => simp [domain.WrapError] at hres
    | none =>
      by_cases hID : found.ID = 0
      · simp [hID, domain.WrapError] at hres
      · rcases hTok : si.jwtGenerator.NewToken w1 si.sessionLength { User := some found }
          with ⟨⟨tok, err1⟩, left, w2⟩
        cases err1 with
        | some e1 => simp [hID, hTok, domain.WrapError] at hres
        | none =>
          simp [hID, hTok] at hres
          obtain ⟨h1, h2⟩ := hres
          subst h1 h2
          exact ⟨found, w1, w2, rfl, hID, hTok, by simp [hID, hTok]⟩

/-- Witness of C4 (amended): a caller object with a forged ID, name and Admin
role and the stale caller of the test are refreshed alike, to the stored user,
by a lookup and a token generation. -/
theorem RefreshSession_ignores_caller_witness :
    usecases_test.interactor.RefreshSession 0 usecases_test.forgedUser
      = usecases_test.interactor.RefreshSession 0 usecases_test.staleUser ∧
    (usecases_test.interactor.RefreshSession 0 usecases_test.forgedUser).result
      = (usecases_test.dbUser, "token", none) ∧
    (usecases_test.interactor.RefreshSession 0 usecases_test.forgedUser).calls =
      [Call.FindByEmail usecases_test.forgedUser.Email,
       Call.NewToken usecases_test.interactor.sessionLength
         { User := some usecases_test.dbUser }] :=
  ⟨(RefreshSession_ignores_caller usecases_test.interactor 0 usecases_test.forgedUser
      usecases_test.staleUser (by decide)).1,
   ((RefreshSession_ignores_caller usecases_test.interactor 0 usecases_test.forgedUser
      usecases_test.staleUser (by decide)).2.2.1 usecases_test.dbUser 1 "token"
      usecases_test.dbUser 2 (by decide) (by decide) (by decide)).1,
   ((RefreshSession_ignores_caller usecases_test.interactor 0 usecases_test.forgedUser
      usecases_test.staleUser (by decide)).2.2.1 usecases_test.dbUser 1 "token"
      usecases_test.dbUser 2 (by decide) (by decide) (by decide)).2.1⟩

/-- C5. CreateUser rejects a pre-existing identity: for a user with non-zero
ID it returns a non-nil error, calls no collaborator (neither the hasher nor
the repository's Store) and leaves the world as it was. -/
theorem CreateUser_rejects_ID {W : Type} (si : sessionInteractor W) (w : W)
    (user : domain.User) (hID : user.ID ≠ 0) :
    (si.CreateUser w user).result ≠ none ∧
    (si.CreateUser w user).calls = [] ∧
    (si.CreateUser w user).world = w := by
  simp [sessionInteractor.CreateUser, hID]

/-- Witness of C5 on the stored user of the test, whose ID is 1. -/
theorem CreateUser_rejects_ID_witness :
    (usecases_test.interactor.CreateUser 0 usecases_test.dbUser).result ≠ none ∧
    (usecases_test.interactor.CreateUser 0 usecases_test.dbUser).calls = [] ∧
    (usecases_test.interactor.CreateUser 0 usecases_test.dbUser).world = 0 :=
  CreateUser_rejects_ID usecases_test.interactor 0 usecases_test.dbUser (by decide)

/-- C6, as stated, fails: with a hasher that returns its input as the hash, the
user of the test has ID zero, needs hashing and is hashed without error, yet
the user handed to Store is the input user with its plaintext password. -/
theorem CreateUser_stores_plaintext_when_hash_is_plaintext :
    usecases_test.newUser.ID = 0 ∧
    usecases_test.interactorPlainHash.NeedsHashing usecases_test.newUser = true ∧
    (usecases_test.interactorPlainHash.passwordHasher.Hash 0
      usecases_test.newUser.Password).1 = ("foobar", none) ∧
    (usecases_test.interactorPlainHash.CreateUser 0 usecases_test.newUser).calls
      = [Call.Hash "foobar", Call.Store usecases_test.newUser] ∧
    usecases_test.newUser.Password = "foobar" := by
  decide

/-- C6, amended. CreateUser hashes before persistence: for a user with ID zero
that needs hashing and whose password the hasher hashes without error, the
calls are Hash(original password) followed by one Store, of the input user
with Password replaced by the hash and every other field unchanged; every user
passed to Store carries the hash as Password, so the input user with its
plaintext is passed to Store exactly when the hasher returned the plaintext as
the hash; and the result of CreateUser is the wrapped result of that Store. -/
theorem CreateUser_hashes_before_Store {W : Type} (si : sessionInteractor W) (w w1 : W)
    (user : domain.User) (hashed : String)
    (hID : user.ID = 0)
    (hNeeds : si.NeedsHashing user = true)
    (hHash : si.passwordHasher.Hash w user.Password = ((hashed, none), w1)) :
    (si.CreateUser w user).calls
      = [Call.Hash user.Password, Call.Store { user with Password := hashed }] ∧
    (∀ stored, Call.Store stored ∈ (si.CreateUser w user).calls →
      stored.Password = hashed ∧ stored.ID = user.ID ∧ stored.Email = user.Email ∧
      stored.DisplayName = user.DisplayName ∧ stored.Role = user.Role ∧
      stored.Preferences = user.Preferences) ∧
    (Call.Store user ∈ (si.CreateUser w user).calls ↔ hashed = user.Password) ∧
    (si.CreateUser w user).result
      = domain.WrapError (si.userRepository.Store w1 { user with Password := hashed }).1 [] ∧
    (si.CreateUser w user).world
      = (si.userRepository.Store w1 { user with Password := hashed }).2 := by
  have hcalls : (si.CreateUser w user).calls
      = [Call.Hash user.Password, Call.Store { user with Password := hashed }] := by
    simp [sessionInteractor.CreateUser, hID, hNeeds, hHash]
  refine ⟨hcalls, ?_, ?_, ?_, ?_⟩
  · intro stored hmem
    rw [hcalls] at hmem
    simp at hmem
    subst hmem
    simp
  · rw [hcalls]
    constructor
    · intro hmem
      simp at hmem
      rw [hmem]
    · intro h
      subst h
      simp
  · simp [sessionInteractor.CreateUser, hID, hNeeds, hHash]
  · simp [sessionInteractor.CreateUser, hID, hNeeds, hHash]

/-- Witness of C6 (amended) on the user of `TestSessionInteractor_CreateUser`:
"foobar" is hashed to "barbar" and the user stored carries "barbar". -/
theorem CreateUser_hashes_before_Store_witness :
    (usecases_test.interactor.CreateUser 0 usecases_test.newUser).calls
      = [Call.Hash usecases_test.newUser.Password,
         Call.Store { usecases_test.newUser with Password := "barbar" }] ∧
    (∀ stored, Call.Store stored ∈ (usecases_test.interactor.CreateUser 0
        usecases_test.newUser).calls →
      stored.Password = "barbar" ∧ stored.ID = usecases_test.newUser.ID ∧
      stored.Email = usecases_test.newUser.Email ∧
      stored.DisplayName = usecases_test.newUser.DisplayName ∧
      stored.Role = usecases_test.newUser.Role ∧
      stored.Preferences = usecases_test.newUser.Preferences) ∧
    (Call.Store usecases_test.newUser ∈
        (usecases_test.interactor.CreateUser 0 usecases_test.newUser).calls ↔
      "barbar" = usecases_test.newUser.Password) ∧
    (usecases_test.interactor.CreateUser 0 usecases_test.newUser).result
      = domain.WrapError (usecases_test.interactor.userRepository.Store 1
          { usecases_test.newUser with Password := "barbar" }).1 [] ∧
    (usecases_test.interactor.CreateUser 0 usecases_test.newUser).world
      = (usecases_test.interactor.userRepository.Store 1
          { usecases_test.newUser with Password := "barbar" }).2 :=
  CreateUser_hashes_before_Store usecases_test.interactor 0 1 usecases_test.newUser "barbar"
    (by decide) (by decide) (by decide)

end usecases

/-! ## Route table -/

namespace app

open services

/-- C7, as stated, fails: the specification lists GET /contest_logs with minimum
role User, while the route table declares that route without a minimum role; so
the surface of the route table is not the listed one, however it is ordered. -/
theorem routes_contest_logs_get_declares_no_MinRole :
    ("GET", "/contest_logs", some Role.RoleUser) ∈ specHTTPSurface ∧
    ({ Method := "GET", Path := "/contest_logs",
       HandlerFunc := ⟨ServiceName.ContestLog, "Get"⟩, MinRole := none } : Route) ∈ routes ∧
    ("GET", "/contest_logs", some Role.RoleUser) ∉ routes.map Route.surface ∧
    ¬ (routes.map Route.surface).Perm specHTTPSurface :=
  ⟨by decide, by decide, by decide,
    fun h => (by decide : ("GET", "/contest_logs", some Role.RoleUser) ∉
      routes.map Route.surface) (h.symm.subset (by decide))⟩

/-- C7, amended. The route table has 18 routes with pairwise distinct (method,
path); its (method, path, minimum role) triples are, in order, those of the
specification's table, except that GET /contest_logs declares no minimum
role. -/
theorem routes_surface :
    routes.length = 18 ∧
    (routes.map (fun r => (r.Method, r.Path))).Nodup ∧
    routes.map Route.surface =
      specHTTPSurface.map (fun e =>
        if surfaceKey e = ("GET", "/contest_logs") then (e.1, e.2.1, none) else e) := by
  decide

/-- C8. Contests are created and updated by administrators only: a route of the
table on /contests or /contests/:id with a mutating method (POST, PUT, DELETE,
PATCH) declares minimum role Admin; and a route bound to the Contest service's
Create or Update handler declares minimum role Admin and is such a mutating
route on /contests or /contests/:id. -/
theorem contest_mutations_admin_only (r : Route) (hr : r ∈ routes) :
    ((r.Path = "/contests" ∨ r.Path = "/contests/:id") → isMutating r.Method = true →
      r.MinRole = some Role.RoleAdmin) ∧
    ((r.HandlerFunc = ⟨ServiceName.Contest, "Create"⟩ ∨
        r.HandlerFunc = ⟨ServiceName.Contest, "Update"⟩) →
      r.MinRole = some Role.RoleAdmin ∧ (r.Path = "/contests" ∨ r.Path = "/contests/:id") ∧
      isMutating r.Method = true) := by
  revert r
  decide

/-- Witness of C8 on the route POST /contests, bound to Contest.Create. -/
theorem contest_mutations_admin_only_witness :
    (({ Method := "POST", Path := "/contests",
        HandlerFunc := ⟨ServiceName.Contest, "Create"⟩,
        MinRole := some Role.RoleAdmin } : Route) ∈ routes) ∧
    (routes.filter (fun r => (r.Path = "/contests" ∨ r.Path = "/contests/:id") ∧
        isMutating r.Method = true)).length = 2 ∧
    (routes.filter (fun r => r.HandlerFunc = ⟨ServiceName.Contest, "Create"⟩ ∨
        r.HandlerFunc = ⟨ServiceName.Contest, "Update"⟩)).length = 2 ∧
    ({ Method := "POST", Path := "/contests", HandlerFunc := ⟨ServiceName.Contest, "Create"⟩,
       MinRole := some Role.RoleAdmin } : Route).MinRole = some Role.RoleAdmin :=
  ⟨by decide, by decide, by decide,
    (contest_mutations_admin_only
      { Method := "POST", Path := "/contests", HandlerFunc := ⟨ServiceName.Contest, "Create"⟩,
        MinRole := some Role.RoleAdmin } (by decide)).1 (Or.inl rfl) (by decide)⟩

end app

/-! ## Session service -/

namespace services

open usecases

/-- What Login does once the body is bound and CreateSession has failed: it
writes 401 without body and returns the error, wrapped. -/
theorem Login_of_error {W : Type} (s : sessionService W) (ctx : Context) (w : W)
    (b : SessionLoginBody) (e : fail.Error)
    (hBind : ctx.Bind { Email := "", Password := "" } = (b, none))
    (hFail : (s.SessionInteractor.CreateSession w b.Email b.Password).result.2.2 = some e) :
    (s.Login ctx w).responses = [Response.NoContent http.StatusUnauthorized] ∧
    (s.Login ctx w).err = some e := by
  simp [sessionService.Login, hBind, hFail, domain.WrapError]

/-- What Refresh does once the token's user is known and RefreshSession has
failed: it writes 401 without body and returns the error, wrapped. -/
theorem Refresh_of_error {W : Type} (s : sessionService W) (ctx : Context) (w : W)
    (sessionUser : domain.User) (e : fail.Error)
    (hUser : ctx.User = Except.ok sessionUser)
    (hFail : (s.SessionInteractor.RefreshSession w sessionUser).result.2.2 = some e) :
    (s.Refresh ctx w).responses = [Response.NoContent http.StatusUnauthorized] ∧
    (s.Refresh ctx w).err = some e := by
  simp [sessionService.Refresh, hUser, hFail, domain.WrapError]

/-- C9. Login response mapping: for a body that binds to (email, password), if
CreateSession(email, password) succeeds with (user, token), Login writes one
response, HTTP 200 with the JSON object of exactly the keys "token" (that
token) and "user" (that user); if CreateSession fails with PasswordIncorrect or
UserDoesNotExist, Login writes one response, HTTP 401 without body, and
returns a non-nil error. -/
theorem Login_response {W : Type} (s : sessionService W) (ctx : Context) (w : W)
    (b : SessionLoginBody)
    (hBind : ctx.Bind { Email := "", Password := "" } = (b, none)) :
    (∀ user token,
      (s.SessionInteractor.CreateSession w b.Email b.Password).result = (user, token, none) →
      (s.Login ctx w).responses =
        [Response.JSON 200 [("token", Value.str token), ("user", Value.user user)]]) ∧
    (IsErr (s.SessionInteractor.CreateSession w b.Email b.Password).result.2.2
        ErrPasswordIncorrect ∨
      IsErr (s.SessionInteractor.CreateSession w b.Email b.Password).result.2.2
        ErrUserDoesNotExist →
      (s.Login ctx w).responses = [Response.NoContent 401] ∧
      (s.Login ctx w).responses.map Response.body = [none] ∧
      (s.Login ctx w).err ≠ none) := by
  constructor
  · intro user token hres
    simp [sessionService.Login, hBind, hres, http.StatusOK]
  · intro hErr
    have hsome : ∃ e, (s.SessionInteractor.CreateSession w b.Email b.Password).result.2.2
        = some e := by
      rcases hErr with ⟨x, hx, _⟩ | ⟨x, hx, _⟩ <;> exact ⟨x, hx⟩
    obtain ⟨e, he⟩ := hsome
    obtain ⟨h1, h2⟩ := Login_of_error s ctx w b e hBind he
    rw [h1, h2]
    simp [http.StatusUnauthorized, Response.body]

/-- Witness of C9: the login of the test's stored user. -/
theorem Login_response_witness :
    (∀ user token,
      ((NewSessionInteractor usecases_test.interactor).CreateSession 0 "foo@bar.com"
        "foobar").result = (user, token, none) →
      ((sessionService.mk (NewSessionInteractor usecases_test.interactor)).Login
        (usecases_test.context "foo@bar.com" "foobar" usecases_test.dbUser) 0).responses =
        [Response.JSON 200 [("token", Value.str token), ("user", Value.user user)]]) ∧
    (IsErr ((NewSessionInteractor usecases_test.interactor).CreateSession 0 "foo@bar.com"
        "foobar").result.2.2 ErrPasswordIncorrect ∨
      IsErr ((NewSessionInteractor usecases_test.interactor).CreateSession 0 "foo@bar.com"
        "foobar").result.2.2 ErrUserDoesNotExist →
      ((sessionService.mk (NewSessionInteractor usecases_test.interactor)).Login
        (usecases_test.context "foo@bar.com" "foobar" usecases_test.dbUser) 0).responses
        = [Response.NoContent 401] ∧
      ((sessionService.mk (NewSessionInteractor usecases_test.interactor)).Login
        (usecases_test.context "foo@bar.com" "foobar" usecases_test.dbUser) 0).responses.map
        Response.body = [none] ∧
      ((sessionService.mk (NewSessionInteractor usecases_test.interactor)).Login
        (usecases_test.context "foo@bar.com" "foobar" usecases_test.dbUser) 0).err ≠ none) :=
  Login_response (sessionService.mk (NewSessionInteractor usecases_test.interactor))
    (usecases_test.context "foo@bar.com" "foobar" usecases_test.dbUser) 0
    { Email := "foo@bar.com", Password := "foobar" } (by decide)

/-- C10, as stated, fails: with an unreachable database CreateSession fails in
Login with a non-ignorable lookup error, and with a token generator that cannot
sign RefreshSession fails in Refresh with a non-ignorable signing error; in both
cases the one response written is HTTP 401, a 4xx status and not a 5xx one. -/
theorem session_failure_answers_401_not_5xx :
    ((NewSessionInteractor usecases_test.interactorUnreachable).CreateSession 0
        "foo@bar.com" "foobar").result.2.2
      = some { Err := "dial tcp: connection refused", Ignorable := false } ∧
    ((sessionService.mk (NewSessionInteractor usecases_test.interactorUnreachable)).Login
        (usecases_test.context "foo@bar.com" "foobar" usecases_test.dbUser) 0).responses
      = [Response.NoContent 401] ∧
    ((NewSessionInteractor usecases_test.interactorNoSigning).RefreshSession 0
        usecases_test.dbUser).result.2.2
      = some { Err := "key is invalid", Ignorable := false } ∧
    ((sessionService.mk (NewSessionInteractor usecases_test.interactorNoSigning)).Refresh
        (usecases_test.context "foo@bar.com" "foobar" usecases_test.dbUser) 0).responses
      = [Response.NoContent 401] ∧
    Is4xx 401 ∧ ¬ Is5xx 401 := by
  decide

/-- C10, amended. Whenever CreateSession (in Login, once the body is bound) or
RefreshSession (in Refresh, once the token's user is known) fails with a
non-ignorable error, the handler writes exactly one response, HTTP 401 without
body, which is a 4xx status, and returns the error wrapped: same underlying
error, still not ignorable. -/
theorem session_failure_response {W : Type} (s : sessionService W) (ctx : Context) (w : W) :
    (∀ b e, ctx.Bind { Email := "", Password := "" } = (b, none) →
      (s.SessionInteractor.CreateSession w b.Email b.Password).result.2.2 = some e →
      e.Ignorable = false →
      (s.Login ctx w).responses = [Response.NoContent 401] ∧ Is4xx 401 ∧
      ∃ x, (s.Login ctx w).err = some x ∧ x.Err = e.Err ∧ x.Ignorable = false) ∧
    (∀ sessionUser e, ctx.User = Except.ok sessionUser →
      (s.SessionInteractor.RefreshSession w sessionUser).result.2.2 = some e →
      e.Ignorable = false →
      (s.Refresh ctx w).responses = [Response.NoContent 401] ∧ Is4xx 401 ∧
      ∃ x, (s.Refresh ctx w).err = some x ∧ x.Err = e.Err ∧ x.Ignorable = false) := by
  constructor
  · intro b e hBind hFail hIgn
    obtain ⟨h1, h2⟩ := Login_of_error s ctx w b e hBind hFail
    exact ⟨by rw [h1]; rfl, by decide, e, h2, rfl, hIgn⟩
  · intro sessionUser e hUser hFail hIgn
    obtain ⟨h1, h2⟩ := Refresh_of_error s ctx w sessionUser e hUser hFail
    exact ⟨by rw [h1]; rfl, by decide, e, h2, rfl, hIgn⟩

/-- Witness of C10 (amended): Login and Refresh over an unreachable database. -/
theorem session_failure_response_witness :
    (((sessionService.mk (NewSessionInteractor usecases_test.interactorUnreachable)).Login
        (usecases_test.context "foo@bar.com" "foobar" usecases_test.dbUser) 0).responses
      = [Response.NoContent 401] ∧ Is4xx 401 ∧
      ∃ x, ((sessionService.mk (NewSessionInteractor
          usecases_test.interactorUnreachable)).Login
        (usecases_test.context "foo@bar.com" "foobar" usecases_test.dbUser) 0).err = some x ∧
        x.Err = (fail.New "dial tcp: connection refused").Err ∧ x.Ignorable = false) ∧
    (((sessionService.mk (NewSessionInteractor usecases_test.interactorUnreachable)).Refresh
        (usecases_test.context "foo@bar.com" "foobar" usecases_test.dbUser) 0).responses
      = [Response.NoContent 401] ∧ Is4xx 401 ∧
      ∃ x, ((sessionService.mk (NewSessionInteractor
          usecases_test.interactorUnreachable)).Refresh
        (usecases_test.context "foo@bar.com" "foobar" usecases_test.dbUser) 0).err = some x ∧
        x.Err = (fail.New "dial tcp: connection refused").Err ∧ x.Ignorable = false) :=
  ⟨(session_failure_response
      (sessionService.mk (NewSessionInteractor usecases_test.interactorUnreachable))
      (usecases_test.context "foo@bar.com" "foobar" usecases_test.dbUser) 0).1
      { Email := "foo@bar.com", Password := "foobar" }
      (fail.New "dial tcp: connection refused") (by decide) (by decide) (by decide),
   (session_failure_response
      (sessionService.mk (NewSessionInteractor usecases_test.interactorUnreachable))
      (usecases_test.context "foo@bar.com" "foobar" usecases_test.dbUser) 0).2
      usecases_test.dbUser (fail.New "dial tcp: connection refused")
      rfl (by decide) (by decide)⟩

end services

/-! ## Session interactor: error taxonomy, refresh, hashing failure -/

namespace usecases

/-- Where an error returned by CreateSession comes from: it is one of the two
sentinels with the ignorable mark, or the very error the lookup returned, or
the very error some call of the token generator returned. -/
theorem CreateSession_error_origin {W : Type} (si : sessionInteractor W) (w : W)
    (email password : String) (x : fail.Error)
    (hx : (si.CreateSession w email password).result.2.2 = some x) :
    x = { Err := ErrUserDoesNotExist.Err, Ignorable := true } ∨
    x = { Err := ErrPasswordIncorrect.Err, Ignorable := true } ∨
    (si.userRepository.FindByEmail w email).1.2 = some x ∨
    (∃ w0 claims, (si.jwtGenerator.NewToken w0 si.sessionLength claims).1.2 = some x) := by
  unfold sessionInteractor.CreateSession at hx
  rcases hFind : si.userRepository.FindByEmail w email with ⟨⟨found, err⟩, w1⟩
  rw [hFind] at hx
  cases err with
  | some e =>
    simp [domain.WrapError] at hx
    simp [hx]
  | none =>
    by_cases hID : found.ID = 0
    · simp [hID, domain.WrapError, fail.Option.apply] at hx
      exact Or.inl hx.symm
    · rcases hCmp : si.passwordHasher.Compare w1 found.Password password with ⟨same, w2⟩
      cases same with
      | false =>
        simp [hID, hCmp, domain.WrapError, fail.Option.apply] at hx
        exact Or.inr (Or.inl hx.symm)
      | true =>
        rcases hTok : si.jwtGenerator.NewToken w2 si.sessionLength { User := some found }
          with ⟨⟨tok, err1⟩, left, w3⟩
        cases err1 with
        | none => simp [hID, hCmp, hTok] at hx
        | some e1 =>
          simp [hID, hCmp, hTok, domain.WrapError] at hx
          exact Or.inr (Or.inr (Or.inr ⟨w2, { User := some found }, by rw [hTok, hx]⟩))

/-- Where an error returned by RefreshSession comes from: it is the sentinel
`ErrUserDoesNotExist` with the ignorable mark, or the very error the lookup
returned, or the very error some call of the token generator returned. -/
theorem RefreshSession_error_origin {W : Type} (si : sessionInteractor W) (w : W)
    (caller : domain.User) (x : fail.Error)
    (hx : (si.RefreshSession w caller).result.2.2 = some x) :
    x = { Err := ErrUserDoesNotExist.Err, Ignorable := true } ∨
    (si.userRepository.FindByEmail w caller.Email).1.2 = some x ∨
    (∃ w0 claims, (si.jwtGenerator.NewToken w0 si.sessionLength claims).1.2 = some x) := by
  unfold sessionInteractor.RefreshSession at hx
  rcases hFind : si.userRepository.FindByEmail w caller.Email with ⟨⟨found, err⟩, w1⟩
  rw [hFind] at hx
  cases err with
  | some e =>
    simp [domain.WrapError] at hx
    simp [hx]
  | none =>
    by_cases hID : found.ID = 0
    · simp [hID, domain.WrapError, fail.Option.apply] at hx
      exact Or.inl hx.symm
    · rcases hTok : si.jwtGenerator.NewToken w1 si.sessionLength { User := some found }
        with ⟨⟨tok, err1⟩, left, w2⟩
      cases err1 with
      | none => simp [hID, hTok] at hx
      | some e1 =>
        simp [hID, hTok, domain.WrapError] at hx
        exact Or.inr (Or.inr ⟨w1, { User := some found }, by rw [hTok, hx]⟩)

/-- The ignorable mark of an error that is a marked sentinel or a lower-level
error tells which of the two it is. -/
theorem ignorable_iff_sentinel (x : fail.Error)
    (h : x = { Err := ErrUserDoesNotExist.Err, Ignorable := true } ∨
      x = { Err := ErrPasswordIncorrect.Err, Ignorable := true } ∨ LowerLevel x) :
    x.Ignorable = true ↔
      (IsErr (some x) ErrUserDoesNotExist ∨ IsErr (some x) ErrPasswordIncorrect) := by
  rcases h with h | h | ⟨h1, h2, h3⟩
  · subst h; simp [IsErr]
  · subst h; simp [IsErr]
  · simp [IsErr, h1, h2, h3]

/-- C11, as stated, fails in both directions: a lookup error that already
carries the ignorable mark is returned by CreateSession marked ignorable
although it is neither UserDoesNotExist nor PasswordIncorrect; and a
repository that returns the sentinel UserDoesNotExist itself as its error makes
RefreshSession return UserDoesNotExist without the ignorable mark. -/
theorem taxonomy_depends_on_collaborator_errors :
    (usecases_test.interactorMarked.CreateSession 0 "foo@bar.com" "foobar").result.2.2
      = some { Err := "row is locked", Ignorable := true } ∧
    ¬ IsErr (usecases_test.interactorMarked.CreateSession 0 "foo@bar.com" "foobar").result.2.2
        ErrUserDoesNotExist ∧
    ¬ IsErr (usecases_test.interactorMarked.CreateSession 0 "foo@bar.com" "foobar").result.2.2
        ErrPasswordIncorrect ∧
    (usecases_test.interactorSentinel.RefreshSession 0 usecases_test.staleUser).result.2.2
      = some { Err := "user does not exist", Ignorable := false } ∧
    IsErr (usecases_test.interactorSentinel.RefreshSession 0 usecases_test.staleUser).result.2.2
      ErrUserDoesNotExist := by
  decide

/-- C11, amended. Provided the errors returned by the repository lookup and by
the token generator are lower-level errors (not marked ignorable themselves,
and neither of the two sentinels), an error returned by CreateSession or
RefreshSession is marked ignorable if and only if it is UserDoesNotExist or
PasswordIncorrect. An error of the lookup and an error of the token generator
are each returned as they are, the interactor adding no ignorable mark; an
absent user and a wrong password give the sentinels marked ignorable; and
every returned error without the mark comes from the lookup or from the token
generator. -/
theorem session_error_taxonomy {W : Type} (si : sessionInteractor W) (w : W)
    (email password : String) (caller : domain.User)
    (hLookup : ∀ w0 e x, (si.userRepository.FindByEmail w0 e).1.2 = some x → LowerLevel x)
    (hToken : ∀ w0 l c x, (si.jwtGenerator.NewToken w0 l c).1.2 = some x → LowerLevel x) :
    (∀ x, (si.CreateSession w email password).result.2.2 = some x →
      (x.Ignorable = true ↔
        (IsErr (some x) ErrUserDoesNotExist ∨ IsErr (some x) ErrPasswordIncorrect))) ∧
    (∀ x, (si.RefreshSession w caller).result.2.2 = some x →
      (x.Ignorable = true ↔
        (IsErr (some x) ErrUserDoesNotExist ∨ IsErr (some x) ErrPasswordIncorrect))) ∧
    (∀ x, (si.userRepository.FindByEmail w email).1.2 = some x →
      (si.CreateSession w email password).result.2.2 = some x ∧ x.Ignorable = false) ∧
    (∀ x, (si.userRepository.FindByEmail w caller.Email).1.2 = some x →
      (si.RefreshSession w caller).result.2.2 = some x ∧ x.Ignorable = false) ∧
    (∀ x, (si.CreateSession w email password).result.2.2 = some x → x.Ignorable = false →
      (si.userRepository.FindByEmail w email).1.2 = some x ∨
      ∃ w0 claims, (si.jwtGenerator.NewToken w0 si.sessionLength claims).1.2 = some x) ∧
    (∀ x, (si.RefreshSession w caller).result.2.2 = some x → x.Ignorable = false →
      (si.userRepository.FindByEmail w caller.Email).1.2 = some x ∨
      ∃ w0 claims, (si.jwtGenerator.NewToken w0 si.sessionLength claims).1.2 = some x) ∧
    (∀ found w1 w2 token left x w3,
      si.userRepository.FindByEmail w email = ((found, none), w1) → found.ID ≠ 0 →
      si.passwordHasher.Compare w1 found.Password password = (true, w2) →
      si.jwtGenerator.NewToken w2 si.sessionLength { User := some found }
        = ((token, some x), left, w3) →
      (si.CreateSession w email password).result = (User.zero, "", some x) ∧
      x.Ignorable = false) ∧
    (∀ found w1 token left x w2,
      si.userRepository.FindByEmail w caller.Email = ((found, none), w1) → found.ID ≠ 0 →
      si.jwtGenerator.NewToken w1 si.sessionLength { User := some found }
        = ((token, some x), left, w2) →
      (si.RefreshSession w caller).result = (User.zero, "", some x) ∧
      x.Ignorable = false) ∧
    (∀ found w1, si.userRepository.FindByEmail w email = ((found, none), w1) →
      found.ID = 0 →
      (si.CreateSession w email password).result.2.2
        = some { Err := ErrUserDoesNotExist.Err, Ignorable := true }) ∧
    (∀ found w1 w2, si.userRepository.FindByEmail w email = ((found, none), w1) →
      found.ID ≠ 0 →
      si.passwordHasher.Compare w1 found.Password password = (false, w2) →
      (si.CreateSession w email password).result.2.2
        = some { Err := ErrPasswordIncorrect.Err, Ignorable := true }) ∧
    (∀ found w1, si.userRepository.FindByEmail w caller.Email = ((found, none), w1) →
      found.ID = 0 →
      (si.RefreshSession w caller).result.2.2
        = some { Err := ErrUserDoesNotExist.Err, Ignorable := true }) := by
  refine ⟨?_, ?_, ?_, ?_, ?_, ?_, ?_, ?_, ?_, ?_, ?_⟩
  · intro x hx
    apply ignorable_iff_sentinel
    rcases CreateSession_error_origin si w email password x hx with h | h | h | ⟨w0, c, h⟩
    · exact Or.inl h
    · exact Or.inr (Or.inl h)
    · exact Or.inr (Or.inr (hLookup w email x h))
    · exact Or.inr (Or.inr (hToken w0 si.sessionLength c x h))
  · intro x hx
    apply ignorable_iff_sentinel
    rcases RefreshSession_error_origin si w caller x hx with h | h | ⟨w0, c, h⟩
    · exact Or.inl h
    · exact Or.inr (Or.inr (hLookup w caller.Email x h))
    · exact Or.inr (Or.inr (hToken w0 si.sessionLength c x h))
  · intro x hx
    refine ⟨?_, (hLookup w email x hx).1⟩
    rcases hFind : si.userRepository.FindByEmail w email with ⟨⟨found, err⟩, w1⟩
    rw [hFind] at hx
    simp only at hx
    subst hx
    simp [sessionInteractor.CreateSession, hFind, domain.WrapError]
  · intro x hx
    refine ⟨?_, (hLookup w caller.Email x hx).1⟩
    rcases hFind : si.userRepository.FindByEmail w caller.Email with ⟨⟨found, err⟩, w1⟩
    rw [hFind] at hx
    simp only at hx
    subst hx
    simp [sessionInteractor.RefreshSession, hFind, domain.WrapError]
  · intro x hx hIgn
    rcases CreateSession_error_origin si w email password x hx with h | h | h | h
    · rw [h] at hIgn; cases hIgn
    · rw [h] at hIgn; cases hIgn
    · exact Or.inl h
    · exact Or.inr h
  · intro x hx hIgn
    rcases RefreshSession_error_origin si w caller x hx with h | h | h
    · rw [h] at hIgn; cases hIgn
    · exact Or.inl h
    · exact Or.inr h
  · intro found w1 w2 token left x w3 hFind hID hCmp hTok
    refine ⟨?_, (hToken w2 si.sessionLength { User := some found } x (by rw [hTok])).1⟩
    simp [sessionInteractor.CreateSession, hFind, hID, hCmp, hTok, domain.WrapError]
  · intro found w1 token left x w2 hFind hID hTok
    refine ⟨?_, (hToken w1 si.sessionLength { User := some found } x (by rw [hTok])).1⟩
    simp [sessionInteractor.RefreshSession, hFind, hID, hTok, domain.WrapError]
  · intro found w1 hFind hID
    simp [sessionInteractor.CreateSession, hFind, hID, domain.WrapError, fail.Option.apply]
  · intro found w1 w2 hFind hID hCmp
    simp [sessionInteractor.CreateSession, hFind, hID, hCmp, domain.WrapError,
      fail.Option.apply]
  · intro found w1 hFind hID
    simp [sessionInteractor.RefreshSession, hFind, hID, domain.WrapError, fail.Option.apply]

/-- Witness of C11 (amended) on an interactor whose lookup fails for one email
and whose token generator cannot sign, both with lower-level errors: the
signing error and the lookup error come back as they are, without the mark,
and the unknown email gives UserDoesNotExist with the mark. -/
theorem session_error_taxonomy_witness :
    (∀ w0 e x, (usecases_test.interactorFlaky.userRepository.FindByEmail w0 e).1.2 = some x →
      LowerLevel x) ∧
    (usecases_test.interactorFlaky.userRepository.FindByEmail 0 "down@bar.com").1.2
      = some (fail.New "dial tcp: connection refused") ∧
    (usecases_test.interactorFlaky.jwtGenerator.NewToken 2 usecases_test.sessionLength
      { User := some usecases_test.dbUser }).1.2 = some (fail.New "key is invalid") ∧
    (usecases_test.interactorFlaky.CreateSession 0 "foo@bar.com" "foobar").result
      = (User.zero, "", some (fail.New "key is invalid")) ∧
    (usecases_test.interactorFlaky.RefreshSession 0 usecases_test.staleUser).result
      = (User.zero, "", some (fail.New "key is invalid")) ∧
    (usecases_test.interactorFlaky.CreateSession 0 "down@bar.com" "foobar").result.2.2
      = some (fail.New "dial tcp: connection refused") ∧
    (usecases_test.interactorFlaky.CreateSession 0 "bar@bar.com" "foobar").result.2.2
      = some { Err := ErrUserDoesNotExist.Err, Ignorable := true } ∧
    (∀ x, (usecases_test.interactorFlaky.CreateSession 0 "foo@bar.com" "foobar").result.2.2
        = some x →
      (x.Ignorable = true ↔
        (IsErr (some x) ErrUserDoesNotExist ∨ IsErr (some x) ErrPasswordIncorrect))) := by
  have hL : ∀ w0 e x,
      (usecases_test.interactorFlaky.userRepository.FindByEmail w0 e).1.2 = some x →
      LowerLevel x := by
    intro w0 e x h
    have h2 : (usecases_test.findFlaky e).2 = some x := h
    unfold usecases_test.findFlaky at h2
    split_ifs at h2
    cases h2
    decide
  have hT : ∀ w0 l c x,
      (usecases_test.interactorFlaky.jwtGenerator.NewToken w0 l c).1.2 = some x →
      LowerLevel x := by
    intro w0 l c x h
    have h2 : some (fail.New "key is invalid") = some x := h
    cases h2
    decide
  exact ⟨hL, by decide, by decide,
    ((session_error_taxonomy usecases_test.interactorFlaky 0 "foo@bar.com" "foobar"
      usecases_test.staleUser hL hT).2.2.2.2.2.2.1 usecases_test.dbUser 1 2 ""
      usecases_test.dbUser (fail.New "key is invalid") 3
      (by decide) (by decide) (by decide) (by decide)).1,
    ((session_error_taxonomy usecases_test.interactorFlaky 0 "foo@bar.com" "foobar"
      usecases_test.staleUser hL hT).2.2.2.2.2.2.2.1 usecases_test.dbUser 1 ""
      usecases_test.dbUser (fail.New "key is invalid") 2
      (by decide) (by decide) (by decide)).1,
    ((session_error_taxonomy usecases_test.interactorFlaky 0 "down@bar.com" "foobar"
      usecases_test.staleUser hL hT).2.2.1 (fail.New "dial tcp: connection refused")
      (by decide)).1,
    (session_error_taxonomy usecases_test.interactorFlaky 0 "bar@bar.com" "foobar"
      usecases_test.staleUser hL hT).2.2.2.2.2.2.2.2.1 User.zero 1 (by decide) (by decide),
    (session_error_taxonomy usecases_test.interactorFlaky 0 "foo@bar.com" "foobar"
      usecases_test.staleUser hL hT).1⟩

/-- C12. RefreshSession re-validates existence and performs no password
re-check: whatever the caller object, no call to the password hasher (Hash or
Compare) is made; changing the caller's password changes nothing in the run;
if the lookup by the caller's email returns, without error, a user with zero
ID, the result is ErrUserDoesNotExist (marked ignorable) and the token
generator is not invoked; if it returns a user with non-zero ID and the token
generator succeeds on the claims embedding that user, RefreshSession succeeds
with that token and that user, as the generator left it behind the pointer of
the claims. -/
theorem RefreshSession_no_password_check {W : Type} (si : sessionInteractor W) (w : W)
    (caller : domain.User) :
    (∀ p, Call.Hash p ∉ (si.RefreshSession w caller).calls) ∧
    (∀ h p, Call.Compare h p ∉ (si.RefreshSession w caller).calls) ∧
    (∀ p, si.RefreshSession w { caller with Password := p } = si.RefreshSession w caller) ∧
    (∀ found w1, si.userRepository.FindByEmail w caller.Email = ((found, none), w1) →
      found.ID = 0 →
      (si.RefreshSession w caller).result
        = (User.zero, "", some { Err := ErrUserDoesNotExist.Err, Ignorable := true }) ∧
      IsErr (si.RefreshSession w caller).result.2.2 ErrUserDoesNotExist ∧
      (∀ l c, Call.NewToken l c ∉ (si.RefreshSession w caller).calls)) ∧
    (∀ found w1 token left w2,
      si.userRepository.FindByEmail w caller.Email = ((found, none), w1) →
      found.ID ≠ 0 →
      si.jwtGenerator.NewToken w1 si.sessionLength { User := some found }
        = ((token, none), left, w2) →
      (si.RefreshSession w caller).result = (left, token, none)) := by
  refine ⟨?_, ?_, ?_, ?_, ?_⟩
  · intro p
    unfold sessionInteractor.RefreshSession
    rcases si.userRepository.FindByEmail w caller.Email with ⟨⟨found, err⟩, w1⟩
    rcases si.jwtGenerator.NewToken w1 si.sessionLength { User := some found }
      with ⟨⟨tok, err1⟩, left, w2⟩
    simp only
    split_ifs <;> simp
  · intro h p
    unfold sessionInteractor.RefreshSession
    rcases si.userRepository.FindByEmail w caller.Email with ⟨⟨found, err⟩, w1⟩
    rcases si.jwtGenerator.NewToken w1 si.sessionLength { User := some found }
      with ⟨⟨tok, err1⟩, left, w2⟩
    simp only
    split_ifs <;> simp
  · intro p
    simp [sessionInteractor.RefreshSession]
  · intro found w1 hFind hID
    simp [sessionInteractor.RefreshSession, hFind, hID, domain.WrapError, fail.Option.apply,
      ErrUserDoesNotExist, fail.New, IsErr]
  · intro found w1 token left w2 hFind hID hTok
    simp [sessionInteractor.RefreshSession, hFind, hID, hTok]

/-- Witness of C12: the stale caller of the test is refreshed to the stored
user without any call to the hasher, and a caller whose email is unknown gets
ErrUserDoesNotExist and no token. -/
theorem RefreshSession_no_password_check_witness :
    (∀ p, Call.Hash p ∉
      (usecases_test.interactor.RefreshSession 0 usecases_test.staleUser).calls) ∧
    (∀ h p, Call.Compare h p ∉
      (usecases_test.interactor.RefreshSession 0 usecases_test.staleUser).calls) ∧
    (usecases_test.interactor.RefreshSession 0 usecases_test.staleUser).result
      = (usecases_test.dbUser, "token", none) ∧
    (usecases_test.interactor.RefreshSession 0
        { usecases_test.staleUser with Email := "bar@bar.com" }).result
      = (User.zero, "", some { Err := ErrUserDoesNotExist.Err, Ignorable := true }) ∧
    (∀ l c, Call.NewToken l c ∉ (usecases_test.interactor.RefreshSession 0
        { usecases_test.staleUser with Email := "bar@bar.com" }).calls) :=
  ⟨(RefreshSession_no_password_check usecases_test.interactor 0 usecases_test.staleUser).1,
   (RefreshSession_no_password_check usecases_test.interactor 0 usecases_test.staleUser).2.1,
   (RefreshSession_no_password_check usecases_test.interactor 0
      usecases_test.staleUser).2.2.2.2 usecases_test.dbUser 1 "token" usecases_test.dbUser 2
      (by decide) (by decide) (by decide),
   ((RefreshSession_no_password_check usecases_test.interactor 0
      { usecases_test.staleUser with Email := "bar@bar.com" }).2.2.2.1 User.zero 1
      (by decide) (by decide)).1,
   ((RefreshSession_no_password_check usecases_test.interactor 0
      { usecases_test.staleUser with Email := "bar@bar.com" }).2.2.2.1 User.zero 1
      (by decide) (by decide)).2.2⟩

/-- C15. CreateUser is atomic with respect to hashing failure: for a user with
ID zero that needs hashing, if Hash returns an error, CreateUser returns a
non-nil error (that error, wrapped), the only collaborator call is that Hash,
and Store is never invoked, so no user is persisted. -/
theorem CreateUser_hash_failure {W : Type} (si : sessionInteractor W) (w w1 : W)
    (user : domain.User) (hashed : String) (e : fail.Error)
    (hID : user.ID = 0)
    (hNeeds : si.NeedsHashing user = true)
    (hHash : si.passwordHasher.Hash w user.Password = ((hashed, some e), w1)) :
    (si.CreateUser w user).result ≠ none ∧
    (si.CreateUser w user).result = some e ∧
    (si.CreateUser w user).calls = [Call.Hash user.Password] ∧
    (∀ stored, Call.Store stored ∉ (si.CreateUser w user).calls) := by
  simp [sessionInteractor.CreateUser, hID, hNeeds, hHash, domain.WrapError]

/-- Witness of C15 on the user of the test and a hasher that fails. -/
theorem CreateUser_hash_failure_witness :
    (usecases_test.interactorNoHashing.CreateUser 0 usecases_test.newUser).result ≠ none ∧
    (usecases_test.interactorNoHashing.CreateUser 0 usecases_test.newUser).result
      = some (fail.New "password too long") ∧
    (usecases_test.interactorNoHashing.CreateUser 0 usecases_test.newUser).calls
      = [Call.Hash usecases_test.newUser.Password] ∧
    (∀ stored, Call.Store stored ∉
      (usecases_test.interactorNoHashing.CreateUser 0 usecases_test.newUser).calls) :=
  CreateUser_hash_failure usecases_test.interactorNoHashing 0 1 usecases_test.newUser ""
    (fail.New "password too long") (by decide) (by decide) (by decide)

end usecases

/-! ## Session service: registration -/

namespace services

open usecases

/-- C14. Register cannot be used to self-assign a role: for a body that binds
to a user, CreateUser is called once, on the bound user with Role set to
RoleUser and Preferences set to the empty preferences object, every other
field (ID, email, display name, password) being the bound one; Register writes
201 without body when CreateUser returns no error, writes nothing and returns
the wrapped error otherwise, so that it responds 201 exactly when CreateUser
returns no error. -/
theorem Register_forces_RoleUser {W : Type} (s : sessionService W) (ctx : Context) (w : W)
    (bound : domain.User)
    (hBind : ctx.BindUser User.zero = (bound, none)) :
    (s.Register ctx w).world =
      (s.SessionInteractor.CreateUser w
        { ID := bound.ID, Email := bound.Email, DisplayName := bound.DisplayName,
          Password := bound.Password, Role := some Role.RoleUser,
          Preferences := some { settings := [] } }).world ∧
    (s.Register ctx w).calls =
      (s.SessionInteractor.CreateUser w
        { ID := bound.ID, Email := bound.Email, DisplayName := bound.DisplayName,
          Password := bound.Password, Role := some Role.RoleUser,
          Preferences := some { settings := [] } }).calls ∧
    ((s.SessionInteractor.CreateUser w
        { ID := bound.ID, Email := bound.Email, DisplayName := bound.DisplayName,
          Password := bound.Password, Role := some Role.RoleUser,
          Preferences := some { settings := [] } }).result = none →
      (s.Register ctx w).responses = [Response.NoContent 201] ∧
      (s.Register ctx w).err = ctx.NoContent 201) ∧
    (∀ e, (s.SessionInteractor.CreateUser w
        { ID := bound.ID, Email := bound.Email, DisplayName := bound.DisplayName,
          Password := bound.Password, Role := some Role.RoleUser,
          Preferences := some { settings := [] } }).result = some e →
      (s.Register ctx w).responses = [] ∧ (s.Register ctx w).err = some e) ∧
    ((s.Register ctx w).responses = [Response.NoContent 201] ↔
      (s.SessionInteractor.CreateUser w
        { ID := bound.ID, Email := bound.Email, DisplayName := bound.DisplayName,
          Password := bound.Password, Role := some Role.RoleUser,
          Preferences := some { settings := [] } }).result = none) := by
  have hcases : ∀ o : Option fail.Error, o = none ∨ ∃ e, o = some e := by
    intro o; cases o <;> simp
  rcases hcases (s.SessionInteractor.CreateUser w
      { ID := bound.ID, Email := bound.Email, DisplayName := bound.DisplayName,
        Password := bound.Password, Role := some Role.RoleUser,
        Preferences := some { settings := [] } }).result with h | ⟨e, h⟩
  · simp [sessionService.Register, hBind, h, http.StatusCreated]
  · simp [sessionService.Register, hBind, h, http.StatusCreated, domain.WrapError]

/-- Witness of C14: a registration body asking for the Admin role is stored,
through the interactor of the tests, with RoleUser, empty preferences and the
hashed password, and answered with 201. -/
theorem Register_forces_RoleUser_witness :
    ((sessionService.mk (NewSessionInteractor usecases_test.interactor)).Register
        (usecases_test.registerContext usecases_test.forgedBody) 0).calls =
      [Call.Hash "foobar",
       Call.Store
        { ID := 0, Email := "foo@bar.com", DisplayName := "John Doe",
          Password := "barbar", Role := some Role.RoleUser,
          Preferences := some { settings := [] } }] ∧
    ((sessionService.mk (NewSessionInteractor usecases_test.interactor)).Register
        (usecases_test.registerContext usecases_test.forgedBody) 0).responses
      = [Response.NoContent 201] :=
  ⟨((Register_forces_RoleUser (sessionService.mk (NewSessionInteractor
        usecases_test.interactor)) (usecases_test.registerContext usecases_test.forgedBody) 0
        usecases_test.forgedBody rfl).2.1).trans (by decide),
   ((Register_forces_RoleUser (sessionService.mk (NewSessionInteractor
        usecases_test.interactor)) (usecases_test.registerContext usecases_test.forgedBody) 0
        usecases_test.forgedBody rfl).2.2.1 (by decide)).1⟩

end services

/-! ## Dependency container: memoization -/

namespace app

open Component

/-- The holders of a container after one of them was replaced. -/
theorem holder_assign (d : serverDependencies) (c c1 : Component) (h : Holder) :
    (d.assign c h).holder c1 = if c1 = c then h else d.holder c1 := by
  cases c <;> cases c1 <;> rfl

/-- Replacing a holder records no constructor run. -/
theorem constructed_assign (d : serverDependencies) (c : Component) (h : Holder) :
    (d.assign c h).constructed = d.constructed := by
  cases c <;> rfl

/-- Replacing a holder leaves the instances built as they were. -/
theorem built_assign (d : serverDependencies) (c c1 : Component) (h : Holder) :
    (d.assign c h).built c1 = d.built c1 := by
  simp [serverDependencies.built, constructed_assign]

/-- A constructor run touches no holder. -/
theorem holder_construct (d : serverDependencies) (c c1 : Component) :
    (d.construct c).2.holder c1 = d.holder c1 := by
  cases c1 <;> rfl

/-- The instances built after further constructor runs. -/
theorem built_append (d d1 : serverDependencies) (new : List (Component × Nat))
    (h : d1.constructed = d.constructed ++ new) (c : Component) :
    d1.built c = d.built c ++ (new.filter (fun e => decide (e.1 = c))).map Prod.snd := by
  simp [serverDependencies.built, h]

/-- The instances built after one constructor run. -/
theorem built_construct (d : serverDependencies) (c c1 : Component) :
    (d.construct c).2.built c1 = d.built c1 ++ if c = c1 then [d.constructed.length] else [] := by
  by_cases h : c = c1 <;> simp [serverDependencies.built, serverDependencies.construct, h]

/-- In a consistent state no component was built twice. -/
theorem Consistent_built_le {d : serverDependencies} (h : d.Consistent) (c : Component) :
    (d.built c).length ≤ 1 := by
  cases hd : (d.holder c).done with
  | true =>
    obtain ⟨a, _, hb⟩ := h.1 c hd
    simp [hb]
  | false => simp [h.2.1 c hd]

/-- A consistent state reaches itself. -/
theorem Reaches_refl (S : List Component) {d : serverDependencies} (h : d.Consistent) :
    d.Reaches S d :=
  ⟨h, fun _ _ => rfl, fun _ _ => rfl, [], by simp, by simp⟩

/-- Reaching composes. -/
theorem Reaches_trans {S : List Component} {d d1 d2 : serverDependencies}
    (h1 : d.Reaches S d1) (h2 : d1.Reaches S d2) : d.Reaches S d2 := by
  obtain ⟨_, hd1, hs1, new1, hc1, hn1⟩ := h1
  obtain ⟨hC2, hd2, hs2, new2, hc2, hn2⟩ := h2
  refine ⟨hC2, ?_, ?_, new1 ++ new2, by rw [hc2, hc1, List.append_assoc], ?_⟩
  · intro c hc
    have := hd1 c hc
    rw [hd2 c (by rw [this]; exact hc), this]
  · intro c hc
    rw [hs2 c hc, hs1 c hc]
  · intro e he
    rcases List.mem_append.1 he with h | h
    · exact hn1 e h
    · exact hn2 e h

/-- Reaching within a list is reaching within a larger one. -/
theorem Reaches_mono {S T : List Component} {d d1 : serverDependencies}
    (hST : ∀ c ∈ S, c ∈ T) (h : d.Reaches S d1) : d.Reaches T d1 := by
  obtain ⟨hC, hd, hs, new, hc, hn⟩ := h
  exact ⟨hC, hd, fun c hc => hs c (fun hS => hc (hST c hS)), new, hc,
    fun e he => hST _ (hn e he)⟩

/-- Exiting within a list is exiting within a larger one. -/
theorem ExitsAt_mono {S T : List Component} {d d1 : serverDependencies}
    (hST : ∀ c ∈ S, c ∈ T) (h : d.ExitsAt S d1) : d.ExitsAt T d1 := by
  obtain ⟨hb, new, hc, hn⟩ := h
  exact ⟨hb, new, hc, fun e he => hST _ (hn e he)⟩

/-- Reaching a state and exiting from it is exiting. -/
theorem Reaches_exits {S : List Component} {d d1 d2 : serverDependencies}
    (h1 : d.Reaches S d1) (h2 : d1.ExitsAt S d2) : d.ExitsAt S d2 := by
  obtain ⟨_, _, _, new1, hc1, hn1⟩ := h1
  obtain ⟨hb, new2, hc2, hn2⟩ := h2
  refine ⟨hb, new1 ++ new2, by rw [hc2, hc1, List.append_assoc], ?_⟩
  intro e he
  rcases List.mem_append.1 he with h | h
  · exact hn1 e h
  · exact hn2 e h

/-- The state after the constructor of a component has run. -/
theorem construct_exits {d : serverDependencies} (c : Component) (hC : d.Consistent)
    (hnd : (d.holder c).done = false) : d.ExitsAt (needs c) (d.construct c).2 := by
  refine ⟨?_, [(c, d.constructed.length)], rfl, ?_⟩
  · intro c1
    rw [built_construct]
    by_cases h : c = c1
    · subst h
      simp [hC.2.1 c hnd]
    · simpa [h] using Consistent_built_le hC c1
  · intro e he
    simp at he
    subst he
    cases c <;> simp [needs]

/-- The state after the constructor of a component has run and its result has
been stored in the holder, when the components it needs are done. -/
theorem construct_assign_reaches {d : serverDependencies} (c : Component) (hC : d.Consistent)
    (hnd : (d.holder c).done = false)
    (hdeps : ∀ c1 ∈ needs c, c1 ≠ c → (d.holder c1).done = true) :
    d.Reaches (needs c)
      ((d.construct c).2.assign c { result := some d.constructed.length, done := true }) := by
  have hself : c ∈ needs c := by cases c <;> simp [needs]
  refine ⟨⟨?_, ?_, ?_⟩, ?_, ?_, [(c, d.constructed.length)], ?_, ?_⟩
  · intro c1 hd
    rw [holder_assign, holder_construct] at hd ⊢
    rw [built_assign, built_construct]
    by_cases h : c1 = c
    · subst h
      simp [hC.2.1 c1 hnd]
    · simp only [h, if_false] at hd ⊢
      obtain ⟨a, ha, hb⟩ := hC.1 c1 hd
      exact ⟨a, ha, by simp [hb, Ne.symm h]⟩
  · intro c1 hd
    rw [holder_assign, holder_construct] at hd
    rw [built_assign, built_construct]
    by_cases h : c1 = c
    · simp [h] at hd
    · simp only [h, if_false] at hd
      simp [hC.2.1 c1 hd, Ne.symm h]
  · intro c1 hd c2 hc2
    rw [holder_assign, holder_construct] at hd ⊢
    by_cases h2 : c2 = c
    · simp [h2]
    · simp only [h2, if_false]
      by_cases h : c1 = c
      · subst h
        exact hdeps c2 hc2 h2
      · simp only [h, if_false] at hd
        exact hC.2.2 c1 hd c2 hc2
  · intro c1 hd
    rw [holder_assign, holder_construct]
    by_cases h : c1 = c
    · subst h
      rw [hnd] at hd
      cases hd
    · simp [h]
  · intro c1 hc1
    rw [holder_assign, holder_construct]
    have h : c1 ≠ c := fun h => hc1 (h ▸ hself)
    simp [h]
  · rw [constructed_assign]
    rfl
  · intro e he
    simp at he
    subst he
    exact hself

/-- A call on a holder that is done returns its result and changes nothing. -/
theorem done_meets {d : serverDependencies} (c : Component) (hC : d.Consistent)
    (hd : (d.holder c).done = true) :
    d.Meets c (Outcome.returned (d.holder c).result d) :=
  ⟨Reaches_refl (needs c) hC, hd, rfl⟩

/-- A call that, the needed components being done, runs the constructor and
stores the instance in the holder. -/
theorem build_meets {d0 d : serverDependencies} (c : Component)
    (hR : d0.Reaches (needs c) d) (hnd : (d.holder c).done = false)
    (hdeps : ∀ c1 ∈ needs c, c1 ≠ c → (d.holder c1).done = true) :
    d0.Meets c (Outcome.returned (some d.constructed.length)
      ((d.construct c).2.assign c { result := some d.constructed.length, done := true })) :=
  ⟨Reaches_trans hR (construct_assign_reaches c hR.1 hnd hdeps),
    by simp [holder_assign], by simp [holder_assign]⟩

/-- The accessor RDB meets what it owes. -/
theorem RDB_meets (env : Environment) (d : serverDependencies) (hC : d.Consistent) :
    d.Meets RDB (d.RDB env) := by
  unfold serverDependencies.RDB
  by_cases hd : d.rdb.done = true
  · rw [if_pos hd]
    exact done_meets RDB hC hd
  · rw [if_neg hd]
    have hnd : (d.holder RDB).done = false := by simpa [serverDependencies.holder] using hd
    by_cases he : env.rdbErr = none
    · simp only [he, ne_eq, not_true_eq_false, if_false]
      exact build_meets RDB (Reaches_refl _ hC) hnd (by simp [needs])
    · simp only [ne_eq, he, not_false_eq_true, if_true]
      exact construct_exits RDB hC hnd

/-- The accessor ErrorReporter meets what it owes. -/
theorem ErrorReporter_meets (env : Environment) (d : serverDependencies) (hC : d.Consistent) :
    d.Meets ErrorReporter (d.ErrorReporter env) := by
  unfold serverDependencies.ErrorReporter
  by_cases hd : d.errorReporter.done = true
  · rw [if_pos hd]
    exact done_meets ErrorReporter hC hd
  · rw [if_neg hd]
    have hnd : (d.holder ErrorReporter).done = false := by
      simpa [serverDependencies.holder] using hd
    by_cases he : env.errorReporterErr = none
    · simp only [he, ne_eq, not_true_eq_false, if_false]
      exact build_meets ErrorReporter (Reaches_refl _ hC) hnd (by simp [needs])
    · simp only [ne_eq, he, not_false_eq_true, if_true]
      exact construct_exits ErrorReporter hC hnd

/-- The accessor JWTGenerator meets what it owes. -/
theorem JWTGenerator_meets (env : Environment) (d : serverDependencies) (hC : d.Consistent) :
    d.Meets JWTGenerator (d.JWTGenerator env) := by
  unfold serverDependencies.JWTGenerator
  by_cases hd : d.jwtGenerator.done = true
  · rw [if_pos hd]
    exact done_meets JWTGenerator hC hd
  · rw [if_neg hd]
    have hnd : (d.holder JWTGenerator).done = false := by
      simpa [serverDependencies.holder] using hd
    exact build_meets JWTGenerator (Reaches_refl _ hC) hnd (by simp [needs])

/-- The accessor SQLHandler meets what it owes. -/
theorem SQLHandler_meets (env : Environment) (d : serverDependencies) (hC : d.Consistent) :
    d.Meets SQLHandler (d.SQLHandler env) := by
  unfold serverDependencies.SQLHandler
  by_cases hd : d.sqlHandler.done = true
  · rw [if_pos hd]
    exact done_meets SQLHandler hC hd
  · rw [if_neg hd]
    have hnd : (d.holder SQLHandler).done = false := by
      simpa [serverDependencies.holder] using hd
    have h := RDB_meets env d hC
    cases hcall : d.RDB env with
    | exited d1 =>
      rw [hcall] at h
      exact ExitsAt_mono (by decide) h
    | returned v d1 =>
      rw [hcall] at h
      obtain ⟨hR, hdone, _⟩ := h
      have hnd1 : (d1.holder SQLHandler).done = false := by
        rw [hR.2.2.1 SQLHandler (by decide)]; exact hnd
      refine build_meets SQLHandler (Reaches_mono (by decide) hR) hnd1 ?_
      intro c1 hc1 hne
      exact hR.1.2.2 RDB hdone c1 (by revert c1; decide)

/-- The accessor Repositories meets what it owes. -/
theorem Repositories_meets (env : Environment) (d : serverDependencies) (hC : d.Consistent) :
    d.Meets Repositories (d.Repositories env) := by
  unfold serverDependencies.Repositories
  by_cases hd : d.repositories.done = true
  · rw [if_pos hd]
    exact done_meets Repositories hC hd
  · rw [if_neg hd]
    have hnd : (d.holder Repositories).done = false := by
      simpa [serverDependencies.holder] using hd
    have h := SQLHandler_meets env d hC
    cases hcall : d.SQLHandler env with
    | exited d1 =>
      rw [hcall] at h
      exact ExitsAt_mono (by decide) h
    | returned v d1 =>
      rw [hcall] at h
      obtain ⟨hR, hdone, _⟩ := h
      have hnd1 : (d1.holder Repositories).done = false := by
        rw [hR.2.2.1 Repositories (by decide)]; exact hnd
      refine build_meets Repositories (Reaches_mono (by decide) hR) hnd1 ?_
      intro c1 hc1 hne
      exact hR.1.2.2 SQLHandler hdone c1 (by revert c1; decide)

/-- The accessor Interactors meets what it owes. -/
theorem Interactors_meets (env : Environment) (d : serverDependencies) (hC : d.Consistent) :
    d.Meets Interactors (d.Interactors env) := by
  unfold serverDependencies.Interactors
  by_cases hd : d.interactors.done = true
  · rw [if_pos hd]
    exact done_meets Interactors hC hd
  · rw [if_neg hd]
    have hnd : (d.holder Interactors).done = false := by
      simpa [serverDependencies.holder] using hd
    have h := Repositories_meets env d hC
    cases hcall : d.Repositories env with
    | exited d1 =>
      rw [hcall] at h
      exact ExitsAt_mono (by decide) h
    | returned v d1 =>
      rw [hcall] at h
      obtain ⟨hR, hdone, _⟩ := h
      have hRm : d.Reaches (needs Interactors) d1 := Reaches_mono (by decide) hR
      have h2 := JWTGenerator_meets env d1 hR.1
      dsimp only
      cases hcall2 : d1.JWTGenerator env with
      | exited d2 =>
        rw [hcall2] at h2
        have h2m : d1.ExitsAt (needs Interactors) d2 := ExitsAt_mono (by decide) h2
        exact Reaches_exits hRm h2m
      | returned v2 d2 =>
        rw [hcall2] at h2
        obtain ⟨hR2, hdone2, _⟩ := h2
        have hR2m : d1.Reaches (needs Interactors) d2 := Reaches_mono (by decide) hR2
        have hnd2 : (d2.holder Interactors).done = false := by
          rw [hR2.2.2.1 Interactors (by decide), hR.2.2.1 Interactors (by decide)]; exact hnd
        refine build_meets Interactors (Reaches_trans hRm hR2m) hnd2 ?_
        intro c1 hc1 hne
        by_cases hj : c1 = JWTGenerator
        · rw [hj]; exact hdone2
        · have h1 : (d1.holder c1).done = true :=
            hR.1.2.2 Repositories hdone c1 (by revert c1; decide)
          rw [hR2.2.1 c1 h1]; exact h1

/-- The accessor Services meets what it owes. -/
theorem Services_meets (env : Environment) (d : serverDependencies) (hC : d.Consistent) :
    d.Meets Services (d.Services env) := by
  unfold serverDependencies.Services
  by_cases hd : d.services.done = true
  · rw [if_pos hd]
    exact done_meets Services hC hd
  · rw [if_neg hd]
    have hnd : (d.holder Services).done = false := by
      simpa [serverDependencies.holder] using hd
    have h := Interactors_meets env d hC
    cases hcall : d.Interactors env with
    | exited d1 =>
      rw [hcall] at h
      exact ExitsAt_mono (by decide) h
    | returned v d1 =>
      rw [hcall] at h
      obtain ⟨hR, hdone, _⟩ := h
      have hnd1 : (d1.holder Services).done = false := by
        rw [hR.2.2.1 Services (by decide)]; exact hnd
      refine build_meets Services (Reaches_mono (by decide) hR) hnd1 ?_
      intro c1 hc1 hne
      exact hR.1.2.2 Interactors hdone c1 (by revert c1; decide)

/-- Building the entries of a route table concerns only what Services needs,
and leaves the holder of Services done when there is an entry. -/
theorem routesFrom_meets (env : Environment) (rs : List services.Route)
    (d : serverDependencies) (hC : d.Consistent) :
    match serverDependencies.routesFrom env rs d with
    | Outcome.returned _ d1 =>
      d.Reaches (needs Services) d1 ∧ (rs ≠ [] → (d1.holder Services).done = true)
    | Outcome.exited d1 => d.ExitsAt (needs Services) d1 := by
  induction rs generalizing d with
  | nil => exact ⟨Reaches_refl _ hC, fun h => absurd rfl h⟩
  | cons r rs ih =>
    unfold serverDependencies.routesFrom
    have h := Services_meets env d hC
    cases hcall : d.Services env with
    | exited d1 =>
      rw [hcall] at h
      exact h
    | returned v d1 =>
      rw [hcall] at h
      obtain ⟨hR, hdone, _⟩ := h
      have h2 := ih d1 hR.1
      dsimp only
      cases hcall2 : serverDependencies.routesFrom env rs d1 with
      | exited d2 =>
        rw [hcall2] at h2
        exact Reaches_exits hR h2
      | returned out d2 =>
        rw [hcall2] at h2
        refine ⟨Reaches_trans hR h2.1, fun _ => ?_⟩
        rw [h2.1.2.1 Services hdone]; exact hdone

/-- The accessor Router meets what it owes. -/
theorem Router_meets (env : Environment) (d : serverDependencies) (hC : d.Consistent) :
    d.Meets Router (d.Router env) := by
  unfold serverDependencies.Router
  by_cases hd : d.router.done = true
  · rw [if_pos hd]
    exact done_meets Router hC hd
  · rw [if_neg hd]
    have hnd : (d.holder Router).done = false := by
      simpa [serverDependencies.holder] using hd
    have h := ErrorReporter_meets env d hC
    cases hcall : d.ErrorReporter env with
    | exited d1 =>
      rw [hcall] at h
      exact ExitsAt_mono (by decide) h
    | returned v d1 =>
      rw [hcall] at h
      obtain ⟨hR, hdone, _⟩ := h
      have hRm : d.Reaches (needs Router) d1 := Reaches_mono (by decide) hR
      have h2 := routesFrom_meets env routes d1 hR.1
      dsimp only [serverDependencies.routes]
      cases hcall2 : serverDependencies.routesFrom env routes d1 with
      | exited d2 =>
        rw [hcall2] at h2
        have h2m : d1.ExitsAt (needs Router) d2 := ExitsAt_mono (by decide) h2
        exact Reaches_exits hRm h2m
      | returned out d2 =>
        rw [hcall2] at h2
        obtain ⟨hR2, hdone2⟩ := h2
        have hR2m : d1.Reaches (needs Router) d2 := Reaches_mono (by decide) hR2
        have hS : (d2.holder Services).done = true := hdone2 (by decide)
        have hnd2 : (d2.holder Router).done = false := by
          rw [hR2.2.2.1 Router (by decide), hR.2.2.1 Router (by decide)]; exact hnd
        refine build_meets Router (Reaches_trans hRm hR2m) hnd2 ?_
        intro c1 hc1 hne
        by_cases hj : c1 = ErrorReporter
        · rw [hj, hR2.2.1 ErrorReporter hdone]; exact hdone
        · exact hR2.1.2.2 Services hS c1 (by revert c1; decide)

/-- Every accessor meets what it owes, from any consistent state. -/
theorem call_meets (env : Environment) (c : Component) (d : serverDependencies)
    (hC : d.Consistent) : d.Meets c (d.call env c) := by
  cases c
  · exact Router_meets env d hC
  · exact ErrorReporter_meets env d hC
  · exact JWTGenerator_meets env d hC
  · exact RDB_meets env d hC
  · exact SQLHandler_meets env d hC
  · exact Repositories_meets env d hC
  · exact Interactors_meets env d hC
  · exact Services_meets env d hC

/-- When neither fallible constructor fails, every accessor returns. -/
theorem call_returns (env : Environment) (hE : env.errorReporterErr = none)
    (hR : env.rdbErr = none) (c : Component) (d : serverDependencies) :
    ∃ v d1, d.call env c = Outcome.returned v d1 := by
  have hRDB : ∀ d : serverDependencies, ∃ v d1, d.RDB env = Outcome.returned v d1 := by
    intro d
    unfold serverDependencies.RDB
    by_cases hd : d.rdb.done = true <;> simp [hd, hR]
  have hSQL : ∀ d : serverDependencies, ∃ v d1, d.SQLHandler env = Outcome.returned v d1 := by
    intro d
    unfold serverDependencies.SQLHandler
    obtain ⟨v, d1, h⟩ := hRDB d
    by_cases hd : d.sqlHandler.done = true <;> simp [hd, h]
  have hRep : ∀ d : serverDependencies,
      ∃ v d1, d.Repositories env = Outcome.returned v d1 := by
    intro d
    unfold serverDependencies.Repositories
    obtain ⟨v, d1, h⟩ := hSQL d
    by_cases hd : d.repositories.done = true <;> simp [hd, h]
  have hJWT : ∀ d : serverDependencies,
      ∃ v d1, d.JWTGenerator env = Outcome.returned v d1 := by
    intro d
    unfold serverDependencies.JWTGenerator
    by_cases hd : d.jwtGenerator.done = true <;> simp [hd]
  have hInt : ∀ d : serverDependencies,
      ∃ v d1, d.Interactors env = Outcome.returned v d1 := by
    intro d
    unfold serverDependencies.Interactors
    obtain ⟨v, d1, h⟩ := hRep d
    obtain ⟨v2, d2, h2⟩ := hJWT d1
    by_cases hd : d.interactors.done = true <;> simp [hd, h, h2]
  have hSrv : ∀ d : serverDependencies, ∃ v d1, d.Services env = Outcome.returned v d1 := by
    intro d
    unfold serverDependencies.Services
    obtain ⟨v, d1, h⟩ := hInt d
    by_cases hd : d.services.done = true <;> simp [hd, h]
  have hErr : ∀ d : serverDependencies,
      ∃ v d1, d.ErrorReporter env = Outcome.returned v d1 := by
    intro d
    unfold serverDependencies.ErrorReporter
    by_cases hd : d.errorReporter.done = true <;> simp [hd, hE]
  have hRoutes : ∀ (rs : List services.Route) (d : serverDependencies),
      ∃ v d1, serverDependencies.routesFrom env rs d = Outcome.returned v d1 := by
    intro rs
    induction rs with
    | nil => intro d; exact ⟨[], d, rfl⟩
    | cons r rs ih =>
      intro d
      unfold serverDependencies.routesFrom
      obtain ⟨v, d1, h⟩ := hSrv d
      obtain ⟨v2, d2, h2⟩ := ih d1
      simp [h, h2]
  have hRouter : ∀ d : serverDependencies, ∃ v d1, d.Router env = Outcome.returned v d1 := by
    intro d
    unfold serverDependencies.Router
    obtain ⟨v, d1, h⟩ := hErr d
    obtain ⟨v2, d2, h2⟩ := hRoutes routes d1
    by_cases hd : d.router.done = true <;> simp [hd, h, serverDependencies.routes, h2]
  cases c
  · exact hRouter d
  · exact hErr d
  · exact hJWT d
  · exact hRDB d
  · exact hSQL d
  · exact hRep d
  · exact hInt d
  · exact hSrv d

/-- The fresh container is consistent. -/
theorem NewServerDependencies_consistent : NewServerDependencies.Consistent := by
  refine ⟨?_, ?_, ?_⟩
  · intro c hd; cases c <;> simp [serverDependencies.holder, NewServerDependencies] at hd
  · intro c _; rfl
  · intro c hd; cases c <;> simp [serverDependencies.holder, NewServerDependencies] at hd

/-- What a sequence of accessor calls does, from any consistent state. -/
theorem callAll_spec (env : Environment) (cs : List Component) (d : serverDependencies)
    (hC : d.Consistent) :
    (∀ c, ((d.callAll env cs).final.built c).length ≤ 1) ∧
    (∃ new, (d.callAll env cs).final.constructed = d.constructed ++ new ∧
      ∀ e ∈ new, ∃ a ∈ cs, e.1 ∈ needs a) ∧
    (∀ c v, (c, v) ∈ (d.callAll env cs).returns →
      ∃ a, v = some a ∧ (d.callAll env cs).final.built c = [a]) ∧
    ((d.callAll env cs).exited = false →
      (d.callAll env cs).final.Consistent ∧
      (d.callAll env cs).returns.map Prod.fst = cs ∧
      (∀ c, (d.holder c).done = true → (d.callAll env cs).final.holder c = d.holder c) ∧
      ∀ a ∈ cs, ((d.callAll env cs).final.holder a).done = true) ∧
    (env.errorReporterErr = none → env.rdbErr = none → (d.callAll env cs).exited = false) := by
  induction cs generalizing d with
  | nil =>
    refine ⟨Consistent_built_le hC, ⟨[], by simp [serverDependencies.callAll], by simp⟩,
      by simp [serverDependencies.callAll], ?_, fun _ _ => rfl⟩
    intro _
    exact ⟨hC, rfl, fun _ _ => rfl, by simp⟩
  | cons c cs ih =>
    have h := call_meets env c d hC
    unfold serverDependencies.callAll
    cases hcall : d.call env c with
    | exited d1 =>
      rw [hcall] at h
      obtain ⟨hb, new, hc, hn⟩ := h
      refine ⟨hb, ⟨new, hc, fun e he => ⟨c, by simp, hn e he⟩⟩, by simp, by simp, ?_⟩
      intro hE hR
      obtain ⟨v, d2, h2⟩ := call_returns env hE hR c d
      rw [h2] at hcall
      cases hcall
    | returned v d1 =>
      rw [hcall] at h
      obtain ⟨⟨hC1, hd1, _, new1, hc1, hn1⟩, hdone, hv⟩ := h
      obtain ⟨ih1, ⟨new2, hc2, hn2⟩, ih3, ih4, ih5⟩ := ih d1 hC1
      dsimp only
      refine ⟨ih1, ⟨new1 ++ new2, by rw [hc2, hc1, List.append_assoc], ?_⟩, ?_, ?_, ih5⟩
      · intro e he
        rcases List.mem_append.1 he with h | h
        · exact ⟨c, by simp, hn1 e h⟩
        · obtain ⟨a, ha, hea⟩ := hn2 e h
          exact ⟨a, List.mem_cons_of_mem _ ha, hea⟩
      · intro c0 v0 hmem
        rcases List.mem_cons.1 hmem with h | h
        · cases h
          obtain ⟨a, ha, hb⟩ := hC1.1 c hdone
          refine ⟨a, by rw [hv, ha], ?_⟩
          have hle := ih1 c
          rw [built_append d1 _ new2 hc2 c, hb] at hle ⊢
          cases hx : (List.filter (fun e => decide (e.1 = c)) new2).map Prod.snd with
          | nil => simp
          | cons x xs => rw [hx] at hle; simp at hle
        · exact ih3 c0 v0 h
      · intro hex
        obtain ⟨hCf, hret, hpres, hall⟩ := ih4 hex
        refine ⟨hCf, by simp [hret], ?_, ?_⟩
        · intro c0 hc0
          have := hd1 c0 hc0
          rw [hpres c0 (by rw [this]; exact hc0), this]
        · intro a ha
          rcases List.mem_cons.1 ha with h | h
          · rw [h, hpres c hdone]; exact hdone
          · exact hall a h

/-- A sequence of calls continues the run of each of its initial parts. -/
theorem callAll_append (env : Environment) (pre post : List Component)
    (d : serverDependencies) :
    d.callAll env (pre ++ post) =
      if (d.callAll env pre).exited = true then d.callAll env pre
      else
        { returns := (d.callAll env pre).returns ++
            ((d.callAll env pre).final.callAll env post).returns
          final := ((d.callAll env pre).final.callAll env post).final
          exited := ((d.callAll env pre).final.callAll env post).exited } := by
  induction pre generalizing d with
  | nil => simp [serverDependencies.callAll]
  | cons c cs ih =>
    have hcons : ∀ l, d.callAll env (c :: l) =
        match d.call env c with
        | Outcome.exited d1 => { returns := [], final := d1, exited := true }
        | Outcome.returned v d1 =>
          { returns := (c, v) :: (d1.callAll env l).returns
            final := (d1.callAll env l).final
            exited := (d1.callAll env l).exited } := fun _ => rfl
    rw [List.cons_append, hcons, hcons]
    cases hcall : d.call env c with
    | exited d1 => simp
    | returned v d1 =>
      dsimp only
      rw [ih d1]
      by_cases hex : (serverDependencies.callAll env cs d1).exited = true <;> simp [hex]

/-- C13. The dependency container memoizes every component. For every answer
of the fallible constructors and every sequence of calls to the accessors
Services, Repositories, Interactors, Router, JWTGenerator, ErrorReporter, RDB
and SQLHandler on a fresh container: no component's constructor runs more than
once; every call that returns, returns the one instance built for its
component, so two calls to the same accessor return the same instance; a
component is built only if one of the calls made needs it, and, unless the
process exits in a failing constructor, every call returns and every component
needed by a call made has been built; the run of a sequence continues the run
of each of its initial parts, so a component is built during the first call
that needs it; and when no constructor fails the process does not exit. -/
theorem container_memoizes (env : Environment) (cs : List Component) :
    (∀ c, ((NewServerDependencies.callAll env cs).final.built c).length ≤ 1) ∧
    (∀ c v, (c, v) ∈ (NewServerDependencies.callAll env cs).returns →
      ∃ a, v = some a ∧ (NewServerDependencies.callAll env cs).final.built c = [a]) ∧
    (∀ c v1 v2, (c, v1) ∈ (NewServerDependencies.callAll env cs).returns →
      (c, v2) ∈ (NewServerDependencies.callAll env cs).returns → v1 = v2) ∧
    (∀ c, (NewServerDependencies.callAll env cs).final.built c ≠ [] →
      ∃ a ∈ cs, c ∈ needs a) ∧
    ((NewServerDependencies.callAll env cs).exited = false →
      (NewServerDependencies.callAll env cs).returns.map Prod.fst = cs ∧
      ∀ a ∈ cs, ∀ c ∈ needs a,
        ∃ i, (NewServerDependencies.callAll env cs).final.built c = [i]) ∧
    (∀ pre post, cs = pre ++ post →
      (NewServerDependencies.callAll env pre).returns <+:
        (NewServerDependencies.callAll env cs).returns ∧
      ∀ c, (NewServerDependencies.callAll env pre).final.built c <+:
        (NewServerDependencies.callAll env cs).final.built c) ∧
    (env.errorReporterErr = none → env.rdbErr = none →
      (NewServerDependencies.callAll env cs).exited = false) := by
  obtain ⟨h1, ⟨new, hc, hn⟩, h3, h4, h5⟩ :=
    callAll_spec env cs NewServerDependencies NewServerDependencies_consistent
  refine ⟨h1, h3, ?_, ?_, ?_, ?_, h5⟩
  · intro c v1 v2 hv1 hv2
    obtain ⟨a1, ha1, hb1⟩ := h3 c v1 hv1
    obtain ⟨a2, ha2, hb2⟩ := h3 c v2 hv2
    rw [hb1] at hb2
    rw [ha1, ha2]
    simpa using hb2
  · intro c hne
    rw [built_append NewServerDependencies _ new hc c] at hne
    have hne2 : (new.filter (fun e => decide (e.1 = c))).map Prod.snd ≠ [] := by
      simpa [serverDependencies.built, NewServerDependencies] using hne
    cases hx : new.filter (fun e => decide (e.1 = c)) with
    | nil => rw [hx] at hne2; exact absurd rfl hne2
    | cons e es =>
      have he : e ∈ new.filter (fun e => decide (e.1 = c)) := by rw [hx]; simp
      rw [List.mem_filter] at he
      obtain ⟨a, ha, hea⟩ := hn e he.1
      have hec : e.1 = c := by simpa using he.2
      exact ⟨a, ha, hec ▸ hea⟩
  · intro hex
    obtain ⟨hCf, hret, _, hall⟩ := h4 hex
    refine ⟨hret, ?_⟩
    intro a ha c hca
    obtain ⟨i, _, hi⟩ := hCf.1 c (hCf.2.2 a (hall a ha) c hca)
    exact ⟨i, hi⟩
  · intro pre post hcs
    subst hcs
    rw [callAll_append]
    by_cases hex : (NewServerDependencies.callAll env pre).exited = true
    · rw [if_pos hex]
      exact ⟨List.prefix_refl _, fun _ => List.prefix_refl _⟩
    · rw [if_neg hex]
      have hex2 : (NewServerDependencies.callAll env pre).exited = false := by
        simpa using hex
      obtain ⟨_, _, _, hp4, _⟩ :=
        callAll_spec env pre NewServerDependencies NewServerDependencies_consistent
      obtain ⟨_, ⟨new2, hc2, _⟩, _, _, _⟩ :=
        callAll_spec env post (NewServerDependencies.callAll env pre).final (hp4 hex2).1
      refine ⟨List.prefix_append _ _, fun c => ?_⟩
      dsimp only
      rw [built_append _ _ new2 hc2 c]
      exact List.prefix_append _ _

/-- Witness of C13: on a fresh container whose constructors do not fail, the
calls Services, Router, RDB, Services return the instances 5, 7, 0 and 5; the
eight constructors ran once each, in the order of need, and RDB was built
during the first call, which needs it. -/
theorem container_memoizes_witness :
    (NewServerDependencies.callAll { errorReporterErr := none, rdbErr := none }
      [Services, Router, RDB, Services]).exited = false ∧
    (NewServerDependencies.callAll { errorReporterErr := none, rdbErr := none }
      [Services, Router, RDB, Services]).returns
      = [(Services, some 5), (Router, some 7), (RDB, some 0), (Services, some 5)] ∧
    (NewServerDependencies.callAll { errorReporterErr := none, rdbErr := none }
      [Services, Router, RDB, Services]).final.constructed
      = [(RDB, 0), (SQLHandler, 1), (Repositories, 2), (JWTGenerator, 3), (Interactors, 4),
         (Services, 5), (ErrorReporter, 6), (Router, 7)] ∧
    (NewServerDependencies.callAll { errorReporterErr := none, rdbErr := none }
      [Services]).final.built RDB <+:
      (NewServerDependencies.callAll { errorReporterErr := none, rdbErr := none }
        [Services, Router, RDB, Services]).final.built RDB ∧
    (∀ c v1 v2,
      (c, v1) ∈ (NewServerDependencies.callAll { errorReporterErr := none, rdbErr := none }
        [Services, Router, RDB, Services]).returns →
      (c, v2) ∈ (NewServerDependencies.callAll { errorReporterErr := none, rdbErr := none }
        [Services, Router, RDB, Services]).returns → v1 = v2) :=
  ⟨(container_memoizes { errorReporterErr := none, rdbErr := none }
      [Services, Router, RDB, Services]).2.2.2.2.2.2 rfl rfl,
   by decide, by decide,
   ((container_memoizes { errorReporterErr := none, rdbErr := none }
      [Services, Router, RDB, Services]).2.2.2.2.2.1 [Services] [Router, RDB, Services]
      rfl).2 RDB,
   (container_memoizes { errorReporterErr := none, rdbErr := none }
      [Services, Router, RDB, Services]).2.2.1⟩

end app
